import Mathlib

/-!
Verification development for the pscloud-exporter metric aggregation engine.

The Go source is shallowly embedded:
* untyped JSON documents (Go map[string]interface, []interface, float64,
  string, bool) become the inductive type `GoVal`;
* each metric write `vec.WithLabelValues(l1,...).Set(v)` becomes one `Write`
  record, and a Domain Processor becomes a function from a document to the
  list of writes it performs, in source order;
* `prometheus.MustNewConstMetric` emissions become `ConstMetric` records;
* network calls are parameters: a `Backend` record carries the outcome of
  every independent query of one scrape cycle, and `Exporter.Collect`
  becomes `collectWrites`, a function from a `Backend` to the write list of
  the cycle (an `Except` result, since one processor contains an unchecked
  Go type assertion that can panic);
* a `prometheus.GaugeVec` becomes an association list from label tuples to
  rational values, and the metric state a function from metric names to such
  lists; `Reset` clears a vector, `Set` upserts one entry.

Go float64 values are modelled as rationals; real time does not appear (the
only time-dependent quantity, days until domain expiry, is abstracted as a
function parameter `parseDays`, `none` standing for a date parse failure).
-/

namespace PSCloud

/-- An untyped Go value as decoded from JSON: the dynamic type behind
map[string]interface, []interface, float64, string and bool. -/
inductive GoVal where
  | num : ℚ → GoVal
  | str : String → GoVal
  | boolean : Bool → GoVal
  | arr : List GoVal → GoVal
  | obj : List (String × GoVal) → GoVal

/-- A decoded top level JSON document (Go map[string]interface). -/
abbrev Doc := List (String × GoVal)

/-- Go type assertion v.(map[string]interface) with the comma-ok form:
succeeds only on an object. -/
def GoVal.asObj : GoVal → Option Doc
  | .obj m => some m
  | _ => none

/-- Go type assertion v.([]interface) with the comma-ok form. -/
def GoVal.asArr : GoVal → Option (List GoVal)
  | .arr xs => some xs
  | _ => none

/-- Go type assertion v.(float64) with the comma-ok form. -/
def GoVal.asNum : GoVal → Option ℚ
  | .num q => some q
  | _ => none

/-- Go type assertion v.(string) with the comma-ok form. -/
def GoVal.asStr : GoVal → Option String
  | .str s => some s
  | _ => none

/-- Look up a key of a Go map; a missing key yields a nil interface, on which
every type assertion fails. -/
def field (m : Doc) (k : String) : Option GoVal :=
  (m.find? (fun p => p.1 == k)).map (fun p => p.2)

/-- m[k].(map[string]interface) with the comma-ok form. -/
def objField (m : Doc) (k : String) : Option Doc :=
  (field m k).bind GoVal.asObj

/-- m[k].([]interface) with the comma-ok form. -/
def arrField (m : Doc) (k : String) : Option (List GoVal) :=
  (field m k).bind GoVal.asArr

/-- m[k].(float64) with the comma-ok form. -/
def numField (m : Doc) (k : String) : Option ℚ :=
  (field m k).bind GoVal.asNum

/-- m[k].(string) with the comma-ok form. -/
def strField (m : Doc) (k : String) : Option String :=
  (field m k).bind GoVal.asStr

/-- One call of vec.WithLabelValues(labels...).Set(value) on a named
prometheus gauge vector. -/
structure Write where
  metric : String
  labels : List String
  value : ℚ
  deriving DecidableEq

/-- One prometheus.MustNewConstMetric emission: a dynamically named
descriptor with its label names, label values and gauge value. -/
structure ConstMetric where
  name : String
  labelNames : List String
  labelValues : List String
  value : ℚ
  deriving DecidableEq

/-- Go int(f) conversion applied to a float64: truncation toward zero,
as used by the Sprintf d format in the source. -/
def goTrunc (q : ℚ) : ℤ := q.num.tdiv q.den

/-- Go Sprintf with the percent-d verb applied to int(f). -/
def goIntStr (q : ℚ) : String := toString (goTrunc q)

/-- Go Sprintf with the percent-dot-zero-f verb: round half to even. -/
def goRoundEven (q : ℚ) : ℤ :=
  let f := ⌊q⌋
  let frac := q - f
  if frac < 1/2 then f
  else if 1/2 < frac then f + 1
  else if f % 2 = 0 then f else f + 1

/-- String form of the percent-dot-zero-f formatting of a float64. -/
def goF0Str (q : ℚ) : String := toString (goRoundEven q)

/-! ## The API client (src/internal/client/client.go)

Each fetch either builds a placeholder document locally or depends on the
outcome of one network query; the latter is passed in as an `Except` (or an
`Except` of an `Option`, where `none` stands for a nil decoded map). -/

/-- Outcome of one GraphQL network call decoded into an untyped document. -/
abbrev QResult := Except String Doc

/-- The credit subobject of the typed balance query response. -/
structure CreditInfo where
  availableCredit : ℚ
  credit : ℚ
  maxCredit : ℚ
  mustPaidTill : String
  deriving DecidableEq

/-- The info subobject of the typed balance query response. -/
structure BalanceInfo where
  balance : ℚ
  bonuses : ℚ
  blocked : ℚ
  credit : CreditInfo
  deriving DecidableEq

/-- The legacy BalanceResponse shape kept for backward compatibility
(client.go lines 49-59). -/
structure BalanceResponse where
  prepay : ℚ
  credit : ℚ
  debt : ℚ
  deriving DecidableEq

/-- One entry of DomainListResponse.Data.Domains.Items
(client.go lines 61-72). -/
structure DomainItem where
  name : String
  status : String
  expiryDate : String
  deriving DecidableEq

/-- Client.GetBalance (client.go lines 161-241): runs the typed balance
query and repacks it; the Debt field has no source and is hard coded to 0
(line 234). -/
def GetBalance (q : Except String BalanceInfo) : Except String BalanceResponse :=
  match q with
  | .error e => .error ("failed to get balance: " ++ e)
  | .ok info => .ok ⟨info.balance, info.credit.credit, 0⟩

/-- Client.GetAccountBalance (client.go lines 341-370): runs the extended
balance query and returns the untyped document. -/
def GetAccountBalance (q : QResult) : QResult :=
  match q with
  | .error e => .error ("failed to get account balance: " ++ e)
  | .ok d => .ok d

/-- Client.GetDomains (client.go lines 243-281): verifies authentication via
GetAccountBalance, then skips the real domain query and returns an empty
domain list. `authQ` is the outcome of the internal authentication call. -/
def GetDomains (authQ : QResult) : Except String (List DomainItem) :=
  match GetAccountBalance authQ with
  | .error e => .error ("failed to authenticate before getting domains: " ++ e)
  | .ok _ => .ok []

/-- The stub document built by Client.GetDomainCounters
(client.go lines 372-391). -/
def domainCountersStub : Doc :=
  [("data", .obj
    [("account", .obj
      [("domains", .obj
        [("stats", .obj
          [("total", .num 0), ("active", .num 0),
           ("expired", .num 0), ("pending", .num 0)])])])])]

/-- Client.GetDomainCounters (client.go lines 372-391): unconditionally
returns the stub with a nil error. -/
def GetDomainCounters : QResult := .ok domainCountersStub

/-- The stub document built by Client.GetProjects
(client.go lines 393-410). -/
def projectsStub : Doc :=
  [("data", .obj
    [("account", .obj
      [("services", .obj
        [("pagination", .obj
          [("items", .arr []), ("count", .num 0)])])])])]

/-- Client.GetProjects (client.go lines 393-410): unconditionally returns
the stub with a nil error (the statuses and perPage arguments are unused). -/
def GetProjects : QResult := .ok projectsStub

/-- Client.GetInvoices (client.go lines 412-451): runs the invoices query
and returns its document, or the wrapped error. -/
def GetInvoices (q : QResult) : QResult :=
  match q with
  | .error e => .error ("failed to get invoices: " ++ e)
  | .ok d => .ok d

/-- The stub document built by Client.GetCloudResources
(client.go lines 453-480). -/
def cloudResourcesStub : Doc :=
  [("data", .obj
    [("vpc", .obj
      [("service", .obj
        [("quotas", .obj [("resources", .arr [])]),
         ("summary", .obj
           [("cpuCores", .num 0), ("ramSizeGb", .num 0),
            ("instancesCount", .num 0), ("volumesCount", .num 0),
            ("volumesSizeGb", .num 0), ("networksCount", .num 0),
            ("floatingIpsCount", .num 0), ("securityGroupsCount", .num 0),
            ("routersCount", .num 0)])])])])]

/-- Client.GetCloudResources (client.go lines 453-480): unconditionally
returns the stub with a nil error. -/
def GetCloudResources : QResult := .ok cloudResourcesStub

/-- The stub document built by Client.GetCloudInstances
(client.go lines 482-498). -/
def cloudInstancesStub : Doc :=
  [("data", .obj
    [("vpc", .obj
      [("instance", .obj
        [("pagination", .obj [("items", .arr [])])])])])]

/-- Client.GetCloudInstances (client.go lines 482-498): unconditionally
returns the stub with a nil error. -/
def GetCloudInstances : QResult := .ok cloudInstancesStub

/-- The stub document built by Client.GetVpsServersStatus
(client.go lines 520-533). -/
def vpsServersStub : Doc :=
  [("data", .obj
    [("vps", .obj
      [("server", .obj
        [("pagination", .obj
          [("items", .arr []), ("count", .num 0)])])])])]

/-- Client.GetVpsServersStatus (client.go lines 519-570): tries the VPS
query; on any error, or a nil decoded result, substitutes the stub and
returns a nil error. -/
def GetVpsServersStatus (q : Except String (Option Doc)) : QResult :=
  match q with
  | .ok (some r) => .ok r
  | _ => .ok vpsServersStub

/-- Client.GetCloudServers (client.go lines 283-310): runs the VPC instance
query and returns its document, or the wrapped error. -/
def GetCloudServers (q : QResult) : QResult :=
  match q with
  | .error e => .error ("failed to get cloud servers: " ++ e)
  | .ok d => .ok d

/-- Client.GetVPSServers (client.go lines 312-339): runs the VPS instance
query and returns its document, or the wrapped error. -/
def GetVPSServers (q : QResult) : QResult :=
  match q with
  | .error e => .error ("failed to get VPS servers: " ++ e)
  | .ok d => .ok d

/-- The stub document built by Client.GetK8SClusters
(client.go lines 626-640). -/
def k8sClustersStub : Doc :=
  [("data", .obj
    [("k8saas", .obj
      [("cluster", .obj
        [("pagination", .obj
          [("count", .num 0), ("items", .arr [])])])])])]

/-- Client.GetK8SClusters (client.go lines 626-688): tries the cluster
query; on any error, or a nil decoded result, substitutes the stub and
returns a nil error. -/
def GetK8SClusters (q : Except String (Option Doc)) : QResult :=
  match q with
  | .ok (some r) => .ok r
  | _ => .ok k8sClustersStub

/-- The stub document built by Client.GetK8SProjects
(client.go lines 818-832). -/
def k8sProjectsStub : Doc :=
  [("data", .obj
    [("k8saas", .obj
      [("project", .obj
        [("pagination", .obj
          [("items", .arr []), ("count", .num 0)])])])])]

/-- Client.GetK8SProjects (client.go lines 818-874): tries the project
query; on any error, or a nil decoded result, substitutes the stub and
returns a nil error. -/
def GetK8SProjects (q : Except String (Option Doc)) : QResult :=
  match q with
  | .ok (some r) => .ok r
  | _ => .ok k8sProjectsStub

/-- The stub document built by Client.GetLBaaSLoadBalancers
(client.go lines 730-748). -/
def lbaasStub : Doc :=
  [("data", .obj
    [("lbaas", .obj
      [("loadBalancer", .obj
        [("pagination", .obj
          [("count", .num 0), ("items", .arr [])])])])])]

/-- Client.GetLBaaSLoadBalancers (client.go lines 730-748): unconditionally
returns the stub with a nil error; no query is ever issued. -/
def GetLBaaSLoadBalancers : QResult := .ok lbaasStub

/-! ## Status classification (collector part_004)

Each switch or if chain that turns a raw status string into a gauge value,
named so the theorems can speak about it. -/

/-- Domain status switch in Collect (part_004 lines 664-672):
active maps to 1, expired to 0, anything else to -1. -/
def domainStatusValue (s : String) : ℚ :=
  if s = "active" then 1 else if s = "expired" then 0 else -1

/-- Server status classification in processServerInfo
(part_004 lines 1145-1150): ACTIVE maps to 1, anything else to 0. -/
def serverStatusValue (s : String) : ℚ :=
  if s = "ACTIVE" then 1 else 0

/-- Cloud instance status switch in processCloudInstances
(part_004 lines 1317-1327): ACTIVE 1, SHUTOFF 0, PAUSED one half,
anything else -1. -/
def cloudInstanceStatusValue (s : String) : ℚ :=
  if s = "ACTIVE" then 1
  else if s = "SHUTOFF" then 0
  else if s = "PAUSED" then 1/2
  else -1

/-- VPS server status classification in processVpsServersStatus
(part_004 lines 1423-1426): ACTIVE maps to 1, anything else to 0. -/
def vpsStatusValue (s : String) : ℚ :=
  if s = "ACTIVE" then 1 else 0

/-- Kubernetes cluster and node group status classification
(part_004 lines 1538-1543 and 1581-1586): CREATE_COMPLETE and
UPDATE_COMPLETE map to 1, anything else to 0. -/
def k8sStatusValue (s : String) : ℚ :=
  if s = "CREATE_COMPLETE" ∨ s = "UPDATE_COMPLETE" then 1 else 0

/-- LBaaS load balancer status classification (part_004 lines 1728-1733):
ACTIVE maps to 1, anything else to 0. -/
def lbStatusValue (s : String) : ℚ :=
  if s = "ACTIVE" then 1 else 0

/-! ## Domain Processors (collector part_004)

Each processor is a function from its raw document to the list of gauge
vector writes it performs, in source order.  A Go status count map
(`map[string]int` filled by iteration) is modelled as an association list in
insertion order. -/

/-- Increment a status counter, Go statusCounts incrementing. -/
def bump (counts : List (String × ℕ)) (k : String) : List (String × ℕ) :=
  match counts with
  | [] => [(k, 1)]
  | (s, n) :: rest => if s = k then (s, n + 1) :: rest else (s, n) :: bump rest k

/-- Exporter.processAccountBalanceInfo (part_004 lines 831-885). -/
def processAccountBalanceInfo (balanceData : Doc) : List Write :=
  match objField balanceData "data" with
  | none => []
  | some data =>
  match objField data "account" with
  | none => []
  | some account =>
  match objField account "current" with
  | none => []
  | some current =>
  match objField current "info" with
  | none => []
  | some info =>
    (match numField info "balance" with
     | some balance => [⟨"pskz_prepay_balance", ["account"], balance⟩]
     | none => []) ++
    (match numField info "bonuses" with
     | some bonuses => [⟨"pskz_bonus_balance", ["account"], bonuses⟩]
     | none => []) ++
    (match numField info "blocked" with
     | some blocked => [⟨"pskz_blocked_balance", ["account"], blocked⟩]
     | none => []) ++
    (match objField info "credit" with
     | some credit =>
       (match numField credit "credit" with
        | some creditVal => [⟨"pskz_credit_balance", ["account_credit"], creditVal⟩]
        | none => []) ++
       (match numField credit "maxCredit" with
        | some maxCredit => [⟨"pskz_credit_balance", ["account_max_credit"], maxCredit⟩]
        | none => []) ++
       (match numField credit "availableCredit" with
        | some availableCredit =>
            [⟨"pskz_credit_balance", ["account_available_credit"], availableCredit⟩]
        | none => [])
     | none => [])

/-- Exporter.processDomainCounters (part_004 lines 887-930). -/
def processDomainCounters (domainCountersData : Doc) : List Write :=
  match objField domainCountersData "data" with
  | none => []
  | some data =>
  match objField data "account" with
  | none => []
  | some account =>
  match objField account "domains" with
  | none => []
  | some domains =>
  match objField domains "stats" with
  | none => []
  | some stats =>
    (match numField stats "total" with
     | some total => [⟨"pskz_domain_counters", ["total"], total⟩]
     | none => []) ++
    (match numField stats "active" with
     | some active => [⟨"pskz_domain_counters", ["active"], active⟩]
     | none => []) ++
    (match numField stats "expired" with
     | some expired => [⟨"pskz_domain_counters", ["expired"], expired⟩]
     | none => []) ++
    (match numField stats "pending" with
     | some pending => [⟨"pskz_domain_counters", ["pending"], pending⟩]
     | none => [])

/-- One iteration of the project items loop in processProjectsInfo
(part_004 lines 966-1008). -/
def projectItemWrites (item : GoVal) : List Write :=
  match item.asObj with
  | none => []
  | some projectItem =>
  match numField projectItem "id" with
  | none => []
  | some projectId =>
    let projectIdStr :=
      match strField projectItem "domain" with
      | some domain => domain ++ "-" ++ goIntStr projectId
      | none => goIntStr projectId
    (match numField projectItem "price" with
     | some price => [⟨"pskz_project_amount", [projectIdStr], price⟩]
     | none => []) ++
    (match numField projectItem "diskUsage" with
     | some diskUsage => [⟨"pskz_project_disk_usage_gb", [projectIdStr], diskUsage⟩]
     | none => []) ++
    (match numField projectItem "diskLimit" with
     | some diskLimit => [⟨"pskz_project_disk_limit_gb", [projectIdStr], diskLimit⟩]
     | none => []) ++
    (match numField projectItem "bandwidthUsage" with
     | some bandwidthUsage => [⟨"pskz_project_bw_usage_gb", [projectIdStr], bandwidthUsage⟩]
     | none => []) ++
    (match numField projectItem "bandwidthLimit" with
     | some bandwidthLimit => [⟨"pskz_project_bw_limit_gb", [projectIdStr], bandwidthLimit⟩]
     | none => [])

/-- Exporter.processProjectsInfo (part_004 lines 932-1009). -/
def processProjectsInfo (projectsData : Doc) : List Write :=
  match objField projectsData "data" with
  | none => []
  | some data =>
  match objField data "account" with
  | none => []
  | some account =>
  match objField account "services" with
  | none => []
  | some services =>
  match objField services "pagination" with
  | none => []
  | some pagination =>
  match arrField pagination "items" with
  | none => []
  | some items => items.foldr (fun it acc => projectItemWrites it ++ acc) []

/-- One iteration of the invoice items loop in processInvoicesInfo
(part_004 lines 1058-1078). -/
def invoiceItemWrites (item : GoVal) : List Write :=
  match item.asObj with
  | none => []
  | some invoiceItem =>
  match numField invoiceItem "id" with
  | none => []
  | some invoiceId =>
    match numField invoiceItem "total" with
    | some total => [⟨"pskz_invoice_amount", [goIntStr invoiceId], total⟩]
    | none => []

/-- Exporter.processInvoicesInfo (part_004 lines 1011-1081). -/
def processInvoicesInfo (invoicesData : Doc) : List Write :=
  match objField invoicesData "data" with
  | none => []
  | some data =>
  match objField data "account" with
  | none => []
  | some account =>
  match objField account "invoice" with
  | none => []
  | some invoice =>
    (match objField invoice "counters" with
     | some counters =>
       (match numField counters "total" with
        | some total => [⟨"pskz_invoice_counters", ["total"], total⟩]
        | none => []) ++
       (match numField counters "unpaid" with
        | some unpaid => [⟨"pskz_invoice_counters", ["unpaid"], unpaid⟩]
        | none => []) ++
       (match numField counters "paid" with
        | some paid => [⟨"pskz_invoice_counters", ["paid"], paid⟩]
        | none => []) ++
       (match numField counters "cancelled" with
        | some cancelled => [⟨"pskz_invoice_counters", ["cancelled"], cancelled⟩]
        | none => [])
     | none => []) ++
    (match objField invoice "pagination" with
     | some pagination =>
       (match arrField pagination "items" with
        | some items => items.foldr (fun it acc => invoiceItemWrites it ++ acc) []
        | none => [])
     | none => [])

/-- One iteration of the server items loop in processServerInfo
(part_004 lines 1117-1159). -/
def serverItemWrites (serviceType : String) (item : GoVal) : List Write :=
  match item.asObj with
  | none => []
  | some server =>
  match strField server "instanceName" with
  | none => []
  | some instanceName =>
    (match numField server "ram" with
     | some ram => [⟨"pskz_server_ram_mb", [serviceType, instanceName], ram⟩]
     | none => []) ++
    (match numField server "cores" with
     | some cores => [⟨"pskz_server_cores", [serviceType, instanceName], cores⟩]
     | none => []) ++
    (match strField server "status" with
     | some status =>
         [⟨"pskz_server_status", [serviceType, instanceName, status], serverStatusValue status⟩]
     | none => []) ++
    (match arrField server "floatingIpsArray" with
     | some ips => [⟨"pskz_server_ip_count", [serviceType, instanceName], (ips.length : ℚ)⟩]
     | none => [])

/-- Exporter.processServerInfo (part_004 lines 1083-1160). -/
def processServerInfo (serverData : Doc) (serviceType : String) : List Write :=
  match objField serverData "data" with
  | none => []
  | some data =>
  match objField data "vpc" with
  | none => []
  | some vpc =>
  match objField vpc "instance" with
  | none => []
  | some inst =>
  match objField inst "pagination" with
  | none => []
  | some pagination =>
  match arrField pagination "items" with
  | none => []
  | some items => items.foldr (fun it acc => serverItemWrites serviceType it ++ acc) []

/-- One iteration of the quota resources loop in processCloudResources
(part_004 lines 1188-1206). -/
def cloudQuotaWrites (res : GoVal) : List Write :=
  match res.asObj with
  | none => []
  | some resource =>
  match strField resource "name" with
  | none => []
  | some name =>
    (match numField resource "used" with
     | some used => [⟨"pskz_cloud_quota", [name ++ "_used"], used⟩]
     | none => []) ++
    (match numField resource "limit" with
     | some limit => [⟨"pskz_cloud_quota", [name ++ "_limit"], limit⟩]
     | none => [])

/-- The summary block of processCloudResources (part_004 lines 1211-1248). -/
def cloudSummaryWrites (summary : Doc) : List Write :=
  [("cpuCores", "cpu_cores"), ("ramSizeGb", "ram_gb"),
   ("instancesCount", "instances_count"), ("volumesCount", "volumes_count"),
   ("volumesSizeGb", "volumes_size_gb"), ("networksCount", "networks_count"),
   ("floatingIpsCount", "floating_ips_count"),
   ("securityGroupsCount", "security_groups_count"),
   ("routersCount", "routers_count")].foldr
    (fun kv acc =>
      (match numField summary kv.1 with
       | some v => [⟨"pskz_cloud_summary", [kv.2], v⟩]
       | none => []) ++ acc) []

/-- The inner loop over one resource of the instanceInfo map in
processCloudResources (part_004 lines 1259-1261).  The value is read with
the unchecked Go type assertion infoValue.(float64), so a non float leaf is
a runtime panic, modelled as the error outcome. -/
def instanceInfoEntryWrites (resource : String) :
    List (String × GoVal) → Except String (List Write)
  | [] => .ok []
  | (infoKey, infoValue) :: rest =>
    match infoValue.asNum with
    | none => .error "interface conversion: interface is not float64"
    | some v =>
      match instanceInfoEntryWrites resource rest with
      | .error e => .error e
      | .ok ws => .ok (⟨"pskz_cloud_instance_info", [resource, infoKey], v⟩ :: ws)

/-- The outer loop over the instanceInfo map in processCloudResources
(part_004 lines 1253-1262). -/
def instanceInfoWrites : List (String × GoVal) → Except String (List Write)
  | [] => .ok []
  | (resource, info) :: rest =>
    match info.asObj with
    | none => instanceInfoWrites rest
    | some resourceInfo =>
      match instanceInfoEntryWrites resource resourceInfo with
      | .error e => .error e
      | .ok ws =>
        match instanceInfoWrites rest with
        | .error e => .error e
        | .ok ws2 => .ok (ws ++ ws2)

/-- Exporter.processCloudResources (part_004 lines 1162-1264).  The error
outcome is the panic raised by the unchecked assertion at line 1260. -/
def processCloudResources (cloudResourcesData : Doc) : Except String (List Write) :=
  match objField cloudResourcesData "data" with
  | none => .ok []
  | some data =>
  match objField data "vpc" with
  | none => .ok []
  | some vpc =>
  match objField vpc "service" with
  | none => .ok []
  | some service =>
    let quotaWs :=
      match objField service "quotas" with
      | some quotas =>
        (match arrField quotas "resources" with
         | some resources => resources.foldr (fun r acc => cloudQuotaWrites r ++ acc) []
         | none => [])
      | none => []
    let summaryWs :=
      match objField service "summary" with
      | some summary => cloudSummaryWrites summary
      | none => []
    match objField service "instanceInfo" with
    | none => .ok (quotaWs ++ summaryWs)
    | some instanceInfo =>
      match instanceInfoWrites instanceInfo with
      | .error e => .error e
      | .ok infoWs => .ok (quotaWs ++ summaryWs ++ infoWs)

/-- One iteration of the instance items loop in processCloudInstances
(part_004 lines 1300-1364). -/
def cloudInstanceItemWrites (item : GoVal) : List Write :=
  match item.asObj with
  | none => []
  | some instanceItem =>
  match strField instanceItem "instanceName" with
  | none => []
  | some instanceName =>
    (match strField instanceItem "status" with
     | some status =>
         [⟨"pskz_cloud_instance_info", [instanceName, "status"],
           cloudInstanceStatusValue status⟩]
     | none => []) ++
    (match strField instanceItem "flavorName" with
     | some flavorName =>
         [⟨"pskz_cloud_instance_info", [instanceName, "flavor_name"], 1⟩,
          ⟨"pskz_cloud_instance_info", [instanceName ++ ":" ++ flavorName, "flavor"], 1⟩]
     | none => []) ++
    (match arrField instanceItem "volumesAttached" with
     | some volumesAttached =>
         [⟨"pskz_cloud_instance_info", [instanceName, "volumes_count"],
           (volumesAttached.length : ℚ)⟩,
          ⟨"pskz_cloud_instance_info", [instanceName, "volumes_total_size"],
           volumesAttached.foldr (fun vol acc =>
             (match vol.asObj with
              | some volume => (numField volume "volumeSize").getD 0
              | none => 0) + acc) 0⟩]
     | none => []) ++
    (match arrField instanceItem "floatingIpsArray" with
     | some floatingIps =>
         [⟨"pskz_cloud_instance_info", [instanceName, "floating_ips_count"],
           (floatingIps.length : ℚ)⟩]
     | none => [])

/-- Exporter.processCloudInstances (part_004 lines 1266-1365). -/
def processCloudInstances (instancesData : Doc) : List Write :=
  match objField instancesData "data" with
  | none => []
  | some data =>
  match objField data "vpc" with
  | none => []
  | some vpc =>
  match objField vpc "instance" with
  | none => []
  | some inst =>
  match objField inst "pagination" with
  | none => []
  | some pagination =>
  match arrField pagination "items" with
  | none => []
  | some items => items.foldr (fun it acc => cloudInstanceItemWrites it ++ acc) []

/-- The VPS server items loop of processVpsServersStatus
(part_004 lines 1404-1444).  The first item that decodes as an object
reads serverId, name and status (lines 1411-1420, a failed comma-blank
assertion leaving the Go zero value), counts the status, and then at line
1427 calls WithLabelValues with the three values (server id, name, status)
on the vpsServerStatusMetric vector, which is declared with only the two
labels instance_name and status (part_004 lines 310-317).  The prometheus
library panics on the inconsistent label cardinality, so the iteration
never reaches the ram and cores writes (themselves also mismatched: three
values on one-label vectors, lines 1436 and 1441) and the loop records
nothing.  Non-object items are skipped as in the source. -/
def vpsItemsLoop : List GoVal → List (String × ℕ) →
    Except String (List Write × List (String × ℕ))
  | [], counts => .ok ([], counts)
  | item :: rest, counts =>
    match item.asObj with
    | none => vpsItemsLoop rest counts
    | some _ =>
      .error "inconsistent label cardinality: expected 2 label values but got 3"

/-- Exporter.processVpsServersStatus (part_004 lines 1367-1450).  Its only
successful outcomes carry no writes: either the navigation fails, or every
item is a non-object, in which case the status counters stay empty and the
counter loop at lines 1447-1449 (which would itself panic, passing three
label values to the two-label vector) writes nothing. -/
def processVpsServersStatus (vpsData : Doc) : Except String (List Write) :=
  match objField vpsData "data" with
  | none => .ok []
  | some data =>
  match objField data "vps" with
  | none => .ok []
  | some vps =>
  match objField vps "server" with
  | none => .ok []
  | some server =>
  match objField server "pagination" with
  | none => .ok []
  | some pagination =>
  match arrField pagination "items" with
  | none => .ok []
  | some items =>
    match vpsItemsLoop items [] with
    | .error e => .error e
    | .ok res =>
      match res.2 with
      | [] => .ok res.1
      | _ :: _ =>
          .error "inconsistent label cardinality: expected 2 label values but got 3"

/-- The node group loop of processK8SClusters (part_004 lines 1565-1626). -/
def nodeGroupWrites (clusterId name : String) : List GoVal → List Write
  | [] => []
  | ng :: rest =>
    match ng.asObj with
    | none => nodeGroupWrites clusterId name rest
    | some nodeGroup =>
      match strField nodeGroup "_id" with
      | none => nodeGroupWrites clusterId name rest
      | some nodeGroupId =>
        let nodeGroupName := (strField nodeGroup "name").getD ""
        let nodeGroupStatus := (strField nodeGroup "status").getD ""
        ⟨"pskz_k8s_nodegroup_status",
          [clusterId, name, nodeGroupId, nodeGroupName, nodeGroupStatus],
          k8sStatusValue nodeGroupStatus⟩ ::
        ((match numField nodeGroup "nodeCount" with
          | some nodeCount =>
              [⟨"pskz_k8s_nodegroup_nodes",
                [clusterId, name, nodeGroupId, nodeGroupName], nodeCount⟩]
          | none => []) ++
         (match objField nodeGroup "flavorDetailed" with
          | some flavorDetailed =>
            (match numField flavorDetailed "vcpus" with
             | some vcpus =>
                 [⟨"pskz_k8s_nodegroup_cores",
                   [clusterId, name, nodeGroupId, nodeGroupName], vcpus⟩]
             | none => []) ++
            (match numField flavorDetailed "ram" with
             | some ram =>
                 [⟨"pskz_k8s_nodegroup_ram_mb",
                   [clusterId, name, nodeGroupId, nodeGroupName], ram⟩]
             | none => [])
          | none => []) ++
         nodeGroupWrites clusterId name rest)

/-- The cluster items loop of processK8SClusters (part_004 lines 1495-1628),
returning the writes and the status counters. -/
def k8sClusterItemsLoop : List GoVal → List (String × ℕ) → List Write × List (String × ℕ)
  | [], counts => ([], counts)
  | item :: rest, counts =>
    match item.asObj with
    | none => k8sClusterItemsLoop rest counts
    | some clusterItem =>
      match strField clusterItem "_id" with
      | none => k8sClusterItemsLoop rest counts
      | some clusterId =>
        let name := (strField clusterItem "name").getD "unknown"
        let status := (strField clusterItem "status").getD "unknown"
        let counts1 := bump counts status
        let projectId :=
          match numField clusterItem "projectId" with
          | some pid => goF0Str pid
          | none => ""
        let endpointId := (strField clusterItem "endpointId").getD ""
        let regionId := (strField clusterItem "regionId").getD ""
        let templateName :=
          match objField clusterItem "clusterTemplate" with
          | some template => (strField template "name").getD "unknown"
          | none => "unknown"
        let itemWs :=
          ⟨"pskz_k8s_cluster_status",
            [clusterId, name, status, endpointId, regionId, projectId, templateName],
            k8sStatusValue status⟩ ::
          ((match numField clusterItem "nodeCount" with
            | some nodeCount => [⟨"pskz_k8s_cluster_nodes", [clusterId, name], nodeCount⟩]
            | none => []) ++
           (match numField clusterItem "masterCount" with
            | some masterCount => [⟨"pskz_k8s_cluster_masters", [clusterId, name], masterCount⟩]
            | none => []) ++
           (match arrField clusterItem "clusterNodeGroups" with
            | some nodeGroups => nodeGroupWrites clusterId name nodeGroups
            | none => []))
        let res := k8sClusterItemsLoop rest counts1
        (itemWs ++ res.1, res.2)

/-- Exporter.processK8SClusters (part_004 lines 1452-1634). -/
def processK8SClusters (k8sClustersData : Doc) : List Write :=
  match objField k8sClustersData "data" with
  | none => []
  | some data =>
  match objField data "k8saas" with
  | none => []
  | some k8saas =>
  match objField k8saas "cluster" with
  | none => []
  | some cluster =>
  match objField cluster "pagination" with
  | none => []
  | some pagination =>
    let countWs :=
      match numField pagination "count" with
      | some count => [⟨"pskz_k8s_cluster_count", ["total"], count⟩]
      | none => []
    match arrField pagination "items" with
    | none => countWs
    | some items =>
      let res := k8sClusterItemsLoop items []
      countWs ++ res.1 ++ res.2.map (fun sc =>
        ⟨"pskz_k8s_cluster_count", [sc.1], (sc.2 : ℚ)⟩)

/-- The load balancer items loop of processLBaaSData
(part_004 lines 1677-1775), returning the writes and the status counters. -/
def lbItemsLoop : List GoVal → List (String × ℕ) → List Write × List (String × ℕ)
  | [], counts => ([], counts)
  | item :: rest, counts =>
    match item.asObj with
    | none => lbItemsLoop rest counts
    | some lb =>
      match strField lb "_id" with
      | none => lbItemsLoop rest counts
      | some id =>
        let name := (strField lb "name").getD "unknown"
        let regionID := (strField lb "regionId").getD "unknown"
        let vipAddress := (strField lb "vipAddress").getD "unknown"
        let status := (strField lb "provisioningStatus").getD "unknown"
        let counts1 := bump counts status
        let clusterName :=
          match objField lb "cluster" with
          | some cluster => (strField cluster "name").getD "unknown"
          | none => "unknown"
        let floatingIP := (strField lb "floatingIpAddress").getD ""
        let itemWs :=
          ⟨"pskz_lbaas_loadbalancer_status",
            [id, name, regionID, clusterName, status, vipAddress, floatingIP],
            lbStatusValue status⟩ ::
          ((match strField lb "flavorName" with
            | some flavorName =>
                if flavorName ≠ "" then [⟨"pskz_lbaas_flavor", [id, name, flavorName], 1⟩]
                else []
            | none => []) ++
           [⟨"pskz_lbaas_floating_ip", [id, name], if floatingIP ≠ "" then 1 else 0⟩] ++
           (match arrField lb "listeners" with
            | some listeners =>
                [⟨"pskz_lbaas_listeners_count", [id, name], (listeners.length : ℚ)⟩]
            | none => []) ++
           (match arrField lb "pools" with
            | some pools => [⟨"pskz_lbaas_pools_count", [id, name], (pools.length : ℚ)⟩]
            | none => []) ++
           (match arrField lb "members" with
            | some members => [⟨"pskz_lbaas_members_count", [id, name], (members.length : ℚ)⟩]
            | none => []))
        let res := lbItemsLoop rest counts1
        (itemWs ++ res.1, res.2)

/-- Exporter.processLBaaSData (part_004 lines 1636-1781). -/
def processLBaaSData (lbaasData : Doc) : List Write :=
  match objField lbaasData "data" with
  | none => []
  | some data =>
  match objField data "lbaas" with
  | none => []
  | some lbaas =>
  match objField lbaas "loadBalancer" with
  | none => []
  | some loadBalancer =>
  match objField loadBalancer "pagination" with
  | none => []
  | some pagination =>
    let countWs :=
      match numField pagination "count" with
      | some count => [⟨"pskz_lbaas_loadbalancer_count", ["total"], count⟩]
      | none => []
    match arrField pagination "items" with
    | none => countWs
    | some items =>
      let res := lbItemsLoop items []
      countWs ++ res.1 ++ res.2.map (fun sc =>
        ⟨"pskz_lbaas_loadbalancer_count", [sc.1], (sc.2 : ℚ)⟩)

/-- One quota entry of the quota loop in processK8SProjects
(part_004 lines 1867-1911): for each present numeric limit and inUse field a
dynamically named constant metric is emitted. -/
def quotaEntryMetrics (serviceName regionId projectId projectName : String)
    (q : GoVal) : List ConstMetric :=
  match q.asObj with
  | none => []
  | some quotaItem =>
  match strField quotaItem "key" with
  | none => []
  | some key =>
    (match numField quotaItem "limit" with
     | some limit =>
         [⟨"pskz_k8s_project_quota_" ++ serviceName ++ "_" ++ key ++ "_limit",
           ["project_id", "project_name", "region_id"],
           [projectId, projectName, regionId], limit⟩]
     | none => []) ++
    (match numField quotaItem "inUse" with
     | some inUse =>
         [⟨"pskz_k8s_project_quota_" ++ serviceName ++ "_" ++ key ++ "_used",
           ["project_id", "project_name", "region_id"],
           [projectId, projectName, regionId], inUse⟩]
     | none => [])

/-- The openstackServices loop of processK8SProjects
(part_004 lines 1855-1914). -/
def openstackServiceMetrics (projectId projectName : String) (service : GoVal) :
    List ConstMetric :=
  match service.asObj with
  | none => []
  | some serviceItem =>
    let serviceName := (strField serviceItem "name").getD ""
    let regionId := (strField serviceItem "regionId").getD ""
    match arrField serviceItem "quota" with
    | some quota =>
        quota.foldr (fun q acc =>
          quotaEntryMetrics serviceName regionId projectId projectName q ++ acc) []
    | none => []

/-- The project items loop of processK8SProjects (part_004 lines 1821-1915),
returning the quota metrics and the status and type counters. -/
def k8sProjectItemsLoop :
    List GoVal → List (String × ℕ) → List (String × ℕ) →
    List ConstMetric × List (String × ℕ) × List (String × ℕ)
  | [], statusCounts, typesCounts => ([], statusCounts, typesCounts)
  | item :: rest, statusCounts, typesCounts =>
    match item.asObj with
    | none => k8sProjectItemsLoop rest statusCounts typesCounts
    | some projectItem =>
      let projectId :=
        match strField projectItem "projectId" with
        | some pid => pid
        | none =>
          match numField projectItem "projectId" with
          | some pid => goF0Str pid
          | none => "unknown"
      let projectName :=
        match strField projectItem "projectName" with
        | some pname => if pname ≠ "" then pname else projectId
        | none => projectId
      let status := (strField projectItem "status").getD ""
      let projectType := (strField projectItem "type").getD ""
      let statusCounts1 := if status ≠ "" then bump statusCounts status else statusCounts
      let typesCounts1 :=
        if projectType ≠ "" then bump typesCounts projectType else typesCounts
      let quotaMs :=
        match arrField projectItem "openstackServices" with
        | some openstackServices =>
            openstackServices.foldr (fun s acc =>
              openstackServiceMetrics projectId projectName s ++ acc) []
        | none => []
      let res := k8sProjectItemsLoop rest statusCounts1 typesCounts1
      (quotaMs ++ res.1, res.2)

/-- Exporter.processK8SProjects (part_004 lines 1783-1950): everything it
emits goes straight to the collection channel as constant metrics. -/
def processK8SProjects (k8sProjectsData : Doc) : List ConstMetric :=
  match objField k8sProjectsData "data" with
  | none => []
  | some data =>
  match objField data "k8saas" with
  | none => []
  | some k8saas =>
  match objField k8saas "project" with
  | none => []
  | some project =>
  match objField project "pagination" with
  | none => []
  | some pagination =>
  match arrField pagination "items" with
  | none => []
  | some items =>
    let res := k8sProjectItemsLoop items [] []
    res.1 ++
    res.2.1.map (fun sc =>
      ⟨"pskz_k8s_project_status_count", ["status"], [sc.1], (sc.2 : ℚ)⟩) ++
    res.2.2.map (fun tc =>
      ⟨"pskz_k8s_project_type_count", ["type"], [tc.1], (tc.2 : ℚ)⟩)

/-- The domain items loop inside Collect (part_004 lines 653-674): a date
parse failure skips the item, otherwise the days to expiry and the
classified status are written.  `parseDays` abstracts time.Parse combined
with time.Until; `none` is a parse failure. -/
def domainsLoop (parseDays : String → Option ℚ) : List DomainItem → List Write
  | [] => []
  | domain :: rest =>
    match parseDays domain.expiryDate with
    | none => domainsLoop parseDays rest
    | some daysUntilExpiry =>
      ⟨"pskz_domain_expiry_days", [domain.name], daysUntilExpiry⟩ ::
      ⟨"pskz_domain_status", [domain.name, domain.status],
        domainStatusValue domain.status⟩ ::
      domainsLoop parseDays rest

/-! ## The Scrape Orchestrator (Exporter.Collect, part_004 lines 539-829) -/

/-- The outcomes of every independent network call of one scrape cycle. -/
structure Backend where
  extBalanceQ : QResult
  balanceQ : Except String BalanceInfo
  domainsAuthQ : QResult
  invoicesQ : QResult
  vpsStatusQ : Except String (Option Doc)
  vpcServersQ : QResult
  vpsServersQ : QResult
  k8sClustersQ : Except String (Option Doc)
  k8sProjectsQ : Except String (Option Doc)

/-- A write to the per-source error gauge vector
lastScrapeErrorMetric.WithLabelValues(t).Set(v). -/
def errW (t : String) (v : ℚ) : Write := ⟨"pskz_last_scrape_error", [t], v⟩

/-- A write to the scrapeSuccessMetric plain gauge. -/
def successW (v : ℚ) : Write := ⟨"pskz_scrape_success", [], v⟩

/-- Collect lines 596-604: the extended balance fetch and its processing. -/
def stageExtBalance (q : QResult) : List Write :=
  match GetAccountBalance q with
  | .error _ => [errW "extended_balance_fetch_error" 1]
  | .ok balanceData =>
      errW "extended_balance_fetch_error" 0 :: processAccountBalanceInfo balanceData

/-- Collect lines 619-623: the writes after a successful balance fetch. -/
def stageBalance (balance : BalanceResponse) : List Write :=
  [errW "balance_fetch_error" 0,
   ⟨"pskz_prepay_balance", ["default"], balance.prepay⟩,
   ⟨"pskz_credit_balance", ["default"], balance.credit⟩,
   ⟨"pskz_debt_balance", ["default"], balance.debt⟩]

/-- Collect lines 625-633: the domain counters fetch and its processing. -/
def stageDomainCounters : List Write :=
  match GetDomainCounters with
  | .error _ => [errW "domain_counters_fetch_error" 1]
  | .ok domainCounters =>
      errW "domain_counters_fetch_error" 0 :: processDomainCounters domainCounters

/-- Collect lines 676-684: the projects fetch and its processing. -/
def stageProjects : List Write :=
  match GetProjects with
  | .error _ => [errW "projects_fetch_error" 1]
  | .ok projectsData => errW "projects_fetch_error" 0 :: processProjectsInfo projectsData

/-- Collect lines 686-694: the invoices fetch and its processing. -/
def stageInvoices (q : QResult) : List Write :=
  match GetInvoices q with
  | .error _ => [errW "invoices_fetch_error" 1]
  | .ok invoicesData => errW "invoices_fetch_error" 0 :: processInvoicesInfo invoicesData

/-- Collect lines 696-704: the cloud resources fetch and its processing;
the error outcome is the processor panic. -/
def stageCloudResources : Except String (List Write) :=
  match GetCloudResources with
  | .error _ => .ok [errW "cloud_resources_fetch_error" 1]
  | .ok cloudResources =>
    match processCloudResources cloudResources with
    | .error e => .error e
    | .ok ws => .ok (errW "cloud_resources_fetch_error" 0 :: ws)

/-- Collect lines 706-714: the cloud instances fetch and its processing. -/
def stageCloudInstances : List Write :=
  match GetCloudInstances with
  | .error _ => [errW "cloud_instances_fetch_error" 1]
  | .ok cloudInstances =>
      errW "cloud_instances_fetch_error" 0 :: processCloudInstances cloudInstances

/-- Collect lines 716-724: the VPS server status fetch and its processing.
The error gauge is set before the processor runs, so on the label
cardinality panic the gauge write has already happened; the second
component records the escaping panic. -/
def stageVpsStatus (q : Except String (Option Doc)) : List Write × Option String :=
  match GetVpsServersStatus q with
  | .error _ => ([errW "vps_servers_fetch_error" 1], none)
  | .ok vpsData =>
    match processVpsServersStatus vpsData with
    | .error e => ([errW "vps_servers_fetch_error" 0], some e)
    | .ok ws => (errW "vps_servers_fetch_error" 0 :: ws, none)

/-- Collect lines 726-747: the VPC and VPS server fetches, performed only
when a service ID is configured. -/
def stageServiceServers (serviceID : String) (vpcQ vpsQ : QResult) : List Write :=
  if serviceID ≠ "" then
    (match GetCloudServers vpcQ with
     | .error _ => [errW "vpc_servers_fetch_error" 1]
     | .ok vpcServers =>
         errW "vpc_servers_fetch_error" 0 :: processServerInfo vpcServers "vpc") ++
    (match GetVPSServers vpsQ with
     | .error _ => [errW "vps_servers_fetch_error" 1]
     | .ok vpsServers =>
         errW "vps_servers_fetch_error" 0 :: processServerInfo vpsServers "vps")
  else []

/-- Collect lines 749-757: the Kubernetes clusters fetch and its
processing. -/
def stageK8sClusters (q : Except String (Option Doc)) : List Write :=
  match GetK8SClusters q with
  | .error _ => [errW "k8s_clusters_fetch_error" 1]
  | .ok k8sClusters => errW "k8s_clusters_fetch_error" 0 :: processK8SClusters k8sClusters

/-- Collect lines 759-767: the Kubernetes projects fetch; its processing
emits constant metrics only. -/
def stageK8sProjects (q : Except String (Option Doc)) : List Write × List ConstMetric :=
  match GetK8SProjects q with
  | .error _ => ([errW "k8s_projects_fetch_error" 1], [])
  | .ok k8sProjects => ([errW "k8s_projects_fetch_error" 0], processK8SProjects k8sProjects)

/-- Collect lines 769-777: the LBaaS load balancers fetch and its
processing. -/
def stageLBaaS : List Write :=
  match GetLBaaSLoadBalancers with
  | .error _ => [errW "lbaas_loadbalancers_fetch_error" 1]
  | .ok lbaasData => errW "lbaas_loadbalancers_fetch_error" 0 :: processLBaaSData lbaasData

/-- Exporter.Collect (part_004 lines 539-829) as the gauge writes and
constant metric emissions of one cycle, in source order, together with the
panic that escaped the cycle, if any.  The two early returns on a balance
or domains failure cut the cycle short after setting scrapeSuccessMetric to
0.  A panic escaping a processor aborts the cycle: the writes performed up
to the panic site have already reached the vectors, everything after it,
the success gauge included, is skipped.  For the cloud resources stage the
panic branch is dead code (GetCloudResources always returns the stub, which
processes cleanly), so only the error gauge write that precedes the
processor call is recorded there.  The scrape duration gauge, which only
reads the clock, is not modelled. -/
def collectWrites (b : Backend) (serviceID : String)
    (parseDays : String → Option ℚ) : List Write × List ConstMetric × Option String :=
  let wExt := stageExtBalance b.extBalanceQ
  match GetBalance b.balanceQ with
  | .error _ => (wExt ++ [errW "balance_fetch_error" 1, successW 0], [], none)
  | .ok balance =>
    let wBal := stageBalance balance
    let wDC := stageDomainCounters
    match GetDomains b.domainsAuthQ with
    | .error _ =>
        (wExt ++ wBal ++ wDC ++ [errW "domains_fetch_error" 1, successW 0], [], none)
    | .ok domainItems =>
      let wDom := errW "domains_fetch_error" 0 :: domainsLoop parseDays domainItems
      match stageCloudResources with
      | .error e =>
          (wExt ++ wBal ++ wDC ++ wDom ++ stageProjects ++
           stageInvoices b.invoicesQ ++ [errW "cloud_resources_fetch_error" 0],
           [], some e)
      | .ok wCR =>
        let vps := stageVpsStatus b.vpsStatusQ
        match vps.2 with
        | some e =>
            (wExt ++ wBal ++ wDC ++ wDom ++ stageProjects ++
             stageInvoices b.invoicesQ ++ wCR ++ stageCloudInstances ++ vps.1,
             [], some e)
        | none =>
          let k8sP := stageK8sProjects b.k8sProjectsQ
          (wExt ++ wBal ++ wDC ++ wDom ++ stageProjects ++
           stageInvoices b.invoicesQ ++ wCR ++ stageCloudInstances ++
           vps.1 ++
           stageServiceServers serviceID b.vpcServersQ b.vpsServersQ ++
           stageK8sClusters b.k8sClustersQ ++ k8sP.1 ++ stageLBaaS ++
           [successW 1], k8sP.2, none)

/-- The gauge writes one cycle performs (on a panicking cycle: the writes
performed before the panic). -/
def writesOf (b : Backend) (serviceID : String)
    (parseDays : String → Option ℚ) : List Write :=
  (collectWrites b serviceID parseDays).1

/-- The constant metric emissions of one cycle. -/
def constMetricsOf (b : Backend) (serviceID : String)
    (parseDays : String → Option ℚ) : List ConstMetric :=
  (collectWrites b serviceID parseDays).2.1

/-- The panic escaping one cycle, if any. -/
def panicOf (b : Backend) (serviceID : String)
    (parseDays : String → Option ℚ) : Option String :=
  (collectWrites b serviceID parseDays).2.2

/-! ## Metric state: prometheus gauge vectors -/

/-- A gauge vector: label tuples with their current values. -/
abbrev GaugeVec := List (List String × ℚ)

/-- The full metric state, one gauge vector per metric name. -/
abbrev MState := String → GaugeVec

/-- WithLabelValues(ls).Set(x): update the entry for the tuple or add it. -/
def setLabel (v : GaugeVec) (ls : List String) (x : ℚ) : GaugeVec :=
  match v with
  | [] => [(ls, x)]
  | (l, y) :: rest => if l = ls then (l, x) :: rest else (l, y) :: setLabel rest ls x

/-- Apply one write to the metric state. -/
def applyWrite (s : MState) (w : Write) : MState :=
  fun n => if n = w.metric then setLabel (s n) w.labels w.value else s n

/-- Apply the writes of a cycle in order. -/
def applyWrites (s : MState) (ws : List Write) : MState := ws.foldl applyWrite s

/-- The 44 processor-owned gauge vectors reset at the top of Collect
(part_004 lines 550-594), in reset order.  The scrape metrics
(duration, success, last error) are not among them. -/
def processorOwnedMetrics : List String :=
  ["pskz_prepay_balance", "pskz_credit_balance", "pskz_debt_balance",
   "pskz_bonus_balance", "pskz_blocked_balance",
   "pskz_domain_expiry_days", "pskz_domain_status", "pskz_domain_counters",
   "pskz_project_amount", "pskz_project_disk_usage_gb",
   "pskz_project_disk_limit_gb", "pskz_project_bw_usage_gb",
   "pskz_project_bw_limit_gb",
   "pskz_server_ram_mb", "pskz_server_cores", "pskz_server_status",
   "pskz_server_ip_count",
   "pskz_invoice_counters", "pskz_invoice_amount",
   "pskz_cloud_quota", "pskz_cloud_summary", "pskz_cloud_instance_info",
   "pskz_vps_server_status", "pskz_vps_server_ram_mb", "pskz_vps_server_cores",
   "pskz_vps_server_disk_gb", "pskz_vps_server_backup_gb",
   "pskz_vps_server_ips_protect", "pskz_vps_server_amount",
   "pskz_k8s_cluster_count", "pskz_k8s_cluster_status",
   "pskz_k8s_cluster_nodes", "pskz_k8s_cluster_masters",
   "pskz_k8s_nodegroup_status", "pskz_k8s_nodegroup_nodes",
   "pskz_k8s_nodegroup_cores", "pskz_k8s_nodegroup_ram_mb",
   "pskz_lbaas_loadbalancer_count", "pskz_lbaas_loadbalancer_status",
   "pskz_lbaas_listeners_count", "pskz_lbaas_pools_count",
   "pskz_lbaas_members_count", "pskz_lbaas_flavor", "pskz_lbaas_floating_ip"]

/-- The Reset block at the top of Collect (part_004 lines 550-594):
every processor-owned vector is cleared before any source is fetched. -/
def resetAll (s : MState) : MState :=
  fun n => if n ∈ processorOwnedMetrics then [] else s n

/-- One full Collect cycle acting on the metric state: reset, then apply the
writes of the cycle in order. -/
def runCollect (b : Backend) (serviceID : String)
    (parseDays : String → Option ℚ) (s : MState) : MState :=
  applyWrites (resetAll s) (writesOf b serviceID parseDays)

/-- Current value of one label tuple of a gauge vector, if present. -/
def gaugeVal (v : GaugeVec) (ls : List String) : Option ℚ :=
  ((v.find? (fun p => p.1 == ls)).map (fun p => p.2))

/-- The value of the last write of a cycle to a given metric and tuple. -/
def lastVal : List Write → String → List String → Option ℚ
  | [], _, _ => none
  | w :: rest, n, ls =>
    match lastVal rest n ls with
    | some x => some x
    | none => if w.metric = n ∧ w.labels = ls then some w.value else none

/-! ## General lemmas about states, writes and lookups -/

/-- The effect of one write on the vector of a fixed metric name. -/
def stepFor (n : String) (v : GaugeVec) (w : Write) : GaugeVec :=
  if n = w.metric then setLabel v w.labels w.value else v

/-- The effect of a write list on the vector of a fixed metric name. -/
def applyFor (n : String) (v : GaugeVec) (ws : List Write) : GaugeVec :=
  ws.foldl (stepFor n) v

theorem applyWrites_apply (ws : List Write) :
    ∀ (s : MState) (n : String), applyWrites s ws n = applyFor n (s n) ws := by
  induction ws with
  | nil => intro s n; rfl
  | cons w rest ih =>
    intro s n
    show applyWrites (applyWrite s w) rest n = applyFor n (s n) (w :: rest)
    rw [ih]
    rfl

theorem gaugeVal_setLabel_self (v : GaugeVec) (ls : List String) (x : ℚ) :
    gaugeVal (setLabel v ls x) ls = some x := by
  induction v with
  | nil => simp [setLabel, gaugeVal, List.find?]
  | cons p rest ih =>
    obtain ⟨l, y⟩ := p
    by_cases h : l = ls
    · simp [setLabel, h, gaugeVal, List.find?]
    · simpa [setLabel, h, gaugeVal, List.find?] using ih

theorem gaugeVal_setLabel_ne (v : GaugeVec) (ls ls' : List String) (x : ℚ)
    (h : ls' ≠ ls) : gaugeVal (setLabel v ls x) ls' = gaugeVal v ls' := by
  induction v with
  | nil =>
    simp [setLabel, gaugeVal, List.find?, beq_false_of_ne (Ne.symm h)]
  | cons p rest ih =>
    obtain ⟨l, y⟩ := p
    by_cases hl : l = ls
    · subst hl
      simp [setLabel, gaugeVal, List.find?, beq_false_of_ne (fun hh : l = ls' => h hh.symm)]
    · rw [setLabel, if_neg hl]
      by_cases hl' : l = ls'
      · simp [gaugeVal, List.find?, hl']
      · simp only [gaugeVal, List.find?, beq_false_of_ne hl']
        exact ih

theorem gaugeVal_applyFor (ws : List Write) :
    ∀ (v : GaugeVec) (n : String) (ls : List String),
      gaugeVal (applyFor n v ws) ls = (lastVal ws n ls).or (gaugeVal v ls) := by
  induction ws with
  | nil => intro v n ls; simp [applyFor, lastVal]
  | cons w rest ih =>
    intro v n ls
    show gaugeVal (applyFor n (stepFor n v w) rest) ls = _
    rw [ih]
    rcases hr : lastVal rest n ls with _ | x
    · simp only [lastVal, hr, Option.none_or]
      by_cases hm : n = w.metric
      · by_cases hlab : w.labels = ls
        · have hc : w.metric = n ∧ w.labels = ls := ⟨hm.symm, hlab⟩
          rw [if_pos hc, stepFor, if_pos hm, hlab, gaugeVal_setLabel_self]
          rfl
        · have hc : ¬ (w.metric = n ∧ w.labels = ls) := fun hh => hlab hh.2
          rw [if_neg hc, stepFor, if_pos hm,
            gaugeVal_setLabel_ne _ _ _ _ (Ne.symm hlab), Option.none_or]
      · have hc : ¬ (w.metric = n ∧ w.labels = ls) := fun hh => hm hh.1.symm
        rw [if_neg hc, stepFor, if_neg hm, Option.none_or]
    · simp [lastVal, hr]

theorem lastVal_append (a c : List Write) (n : String) (ls : List String) :
    lastVal (a ++ c) n ls = (lastVal c n ls).or (lastVal a n ls) := by
  induction a with
  | nil =>
    show lastVal c n ls = (lastVal c n ls).or none
    rw [Option.or_none]
  | cons w rest ih =>
    show (match lastVal (rest ++ c) n ls with
          | some x => some x
          | none => if w.metric = n ∧ w.labels = ls then some w.value else none) = _
    rw [ih]
    rcases hc : lastVal c n ls with _ | x <;> rcases hr : lastVal rest n ls with _ | y <;>
      simp [lastVal, hr, Option.or]

theorem lastVal_isSome_iff (ws : List Write) (n : String) (ls : List String) :
    (lastVal ws n ls).isSome ↔ ∃ x, (⟨n, ls, x⟩ : Write) ∈ ws := by
  induction ws with
  | nil => simp [lastVal]
  | cons w rest ih =>
    simp only [lastVal]
    rcases hr : lastVal rest n ls with _ | x
    · rw [hr] at ih
      simp only [Option.isSome_none, Bool.false_eq_true, false_iff, not_exists] at ih
      constructor
      · intro h
        by_cases hc : w.metric = n ∧ w.labels = ls
        · refine ⟨w.value, ?_⟩
          have : w = ⟨n, ls, w.value⟩ := by
            obtain ⟨h1, h2⟩ := hc; cases w; simp_all
          rw [← this]; exact List.mem_cons_self w rest
        · simp [hc] at h
      · rintro ⟨x, hx⟩
        rcases List.mem_cons.mp hx with h | h
        · have hc : w.metric = n ∧ w.labels = ls := by rw [← h]; exact ⟨rfl, rfl⟩
          simp [hc]
        · exact absurd h (ih x)
    · rw [hr] at ih
      simp only [Option.isSome_some, true_iff] at ih
      obtain ⟨x', hx'⟩ := ih
      simp only [Option.isSome_some, true_iff]
      exact ⟨x', List.mem_cons_of_mem w hx'⟩

theorem gaugeVal_isSome_iff (v : GaugeVec) (ls : List String) :
    (gaugeVal v ls).isSome ↔ ∃ x, (ls, x) ∈ v := by
  induction v with
  | nil => simp [gaugeVal, List.find?]
  | cons p rest ih =>
    obtain ⟨l, y⟩ := p
    by_cases h : l = ls
    · subst h
      constructor
      · intro _; exact ⟨y, List.mem_cons_self _ _⟩
      · intro _; simp [gaugeVal, List.find?]
    · simp only [gaugeVal, List.find?] at ih ⊢
      have hb : (l == ls) = false := beq_false_of_ne h
      simp only [hb]
      rw [ih]
      constructor
      · rintro ⟨x, hx⟩; exact ⟨x, List.mem_cons_of_mem _ hx⟩
      · rintro ⟨x, hx⟩
        rcases List.mem_cons.mp hx with hh | hh
        · simp only [Prod.mk.injEq] at hh
          exact absurd hh.1.symm h
        · exact ⟨x, hh⟩

theorem lastVal_none_of_untouched (ws : List Write) (n : String) (ls : List String)
    (h : ∀ w ∈ ws, w.metric ≠ n) : lastVal ws n ls = none := by
  induction ws with
  | nil => rfl
  | cons w rest ih =>
    have hw := h w (List.mem_cons_self w rest)
    have hrest : ∀ w' ∈ rest, w'.metric ≠ n := fun w' hw' => h w' (List.mem_cons_of_mem w hw')
    simp [lastVal, ih hrest, hw]

theorem applyFor_untouched (ws : List Write) :
    ∀ (v : GaugeVec) (n : String), (∀ w ∈ ws, w.metric ≠ n) → applyFor n v ws = v := by
  induction ws with
  | nil => intro v n _; rfl
  | cons w rest ih =>
    intro v n h
    have hw := h w (List.mem_cons_self w rest)
    have hv : stepFor n v w = v := by
      rw [stepFor, if_neg (fun hh : n = w.metric => hw hh.symm)]
    show applyFor n (stepFor n v w) rest = v
    rw [hv]
    exact ih v n (fun w' hw' => h w' (List.mem_cons_of_mem w hw'))

theorem resetAll_owned (s : MState) (n : String) (h : n ∈ processorOwnedMetrics) :
    resetAll s n = [] := by
  simp [resetAll, h]

theorem mem_foldr_append {α : Type} (f : α → List Write) (items : List α) (w : Write)
    (hw : w ∈ items.foldr (fun it acc => f it ++ acc) []) : ∃ it ∈ items, w ∈ f it := by
  induction items with
  | nil => simp at hw
  | cons it rest ih =>
    simp only [List.foldr_cons, List.mem_append] at hw
    rcases hw with h | h
    · exact ⟨it, List.mem_cons_self it rest, h⟩
    · obtain ⟨it', hit', hw'⟩ := ih h
      exact ⟨it', List.mem_cons_of_mem it hit', hw'⟩

/-! ## Metric footprints of the processors fed by real queries

Each processor only ever writes to its own metric family; in particular none
touches the scrape self-observability gauges or another family's vectors. -/

theorem mem_foldr_append_iff {α : Type} (f : α → List Write) (items : List α) (w : Write) :
    w ∈ items.foldr (fun it acc => f it ++ acc) [] ↔ ∃ it ∈ items, w ∈ f it := by
  induction items with
  | nil => simp
  | cons it rest ih => simp [ih]

theorem processAccountBalanceInfo_metrics (d : Doc) :
    ∀ w ∈ processAccountBalanceInfo d,
    w.metric ∈ ["pskz_prepay_balance", "pskz_bonus_balance",
                "pskz_blocked_balance", "pskz_credit_balance"] := by
  unfold processAccountBalanceInfo
  repeat' split
  all_goals simp [List.forall_mem_append]

theorem invoiceItemWrites_metrics (it : GoVal) :
    ∀ w ∈ invoiceItemWrites it, w.metric = "pskz_invoice_amount" := by
  unfold invoiceItemWrites
  repeat' split
  all_goals simp

theorem processInvoicesInfo_metrics (d : Doc) :
    ∀ w ∈ processInvoicesInfo d,
      w.metric ∈ ["pskz_invoice_counters", "pskz_invoice_amount"] := by
  unfold processInvoicesInfo
  repeat' split
  all_goals simp [List.forall_mem_append, mem_foldr_append_iff]
  all_goals intro w it hit hw
  all_goals simp [invoiceItemWrites_metrics it w hw]

theorem serverItemWrites_metrics (serviceType : String) (it : GoVal) :
    ∀ w ∈ serverItemWrites serviceType it,
      w.metric ∈ ["pskz_server_ram_mb", "pskz_server_cores", "pskz_server_status",
                  "pskz_server_ip_count"] := by
  unfold serverItemWrites
  repeat' split
  all_goals simp [List.forall_mem_append]

theorem processServerInfo_metrics (d : Doc) (serviceType : String) :
    ∀ w ∈ processServerInfo d serviceType,
      w.metric ∈ ["pskz_server_ram_mb", "pskz_server_cores", "pskz_server_status",
                  "pskz_server_ip_count"] := by
  unfold processServerInfo
  repeat' split
  all_goals simp [mem_foldr_append_iff]
  all_goals intro w it hit hw
  all_goals simpa using serverItemWrites_metrics serviceType it w hw

/-- When the VPS items loop terminates normally (no object item hit the
panicking write), it has produced no writes and left the counters alone. -/
theorem vpsItemsLoop_ok (items : List GoVal) :
    ∀ (counts : List (String × ℕ)) res, vpsItemsLoop items counts = .ok res →
      res.1 = [] ∧ res.2 = counts := by
  induction items with
  | nil =>
    intro counts res h
    simp only [vpsItemsLoop] at h
    cases h
    exact ⟨rfl, rfl⟩
  | cons item rest ih =>
    intro counts res h
    simp only [vpsItemsLoop] at h
    split at h
    · exact ih _ _ h
    · cases h

/-- A normally terminating processVpsServersStatus run wrote nothing: every
path to the status counter loop panics first. -/
theorem processVpsServersStatus_ok_empty (d : Doc) (ws : List Write)
    (h : processVpsServersStatus d = .ok ws) : ws = [] := by
  unfold processVpsServersStatus at h
  rcases h1 : objField d "data" with _ | data <;> simp only [h1] at h
  · injection h with h; exact h.symm
  · rcases h2 : objField data "vps" with _ | vps <;> simp only [h2] at h
    · injection h with h; exact h.symm
    · rcases h3 : objField vps "server" with _ | server <;> simp only [h3] at h
      · injection h with h; exact h.symm
      · rcases h4 : objField server "pagination" with _ | pagination <;>
          simp only [h4] at h
        · injection h with h; exact h.symm
        · rcases h5 : arrField pagination "items" with _ | items <;>
            simp only [h5] at h
          · injection h with h; exact h.symm
          · rcases h6 : vpsItemsLoop items [] with e | res <;> simp only [h6] at h
            · exact Except.noConfusion h
            · have hres := vpsItemsLoop_ok items [] res h6
              rcases h7 : res.2 with _ | ⟨c, cs⟩ <;> simp only [h7] at h
              · injection h with h; rw [← h]; exact hres.1
              · exact Except.noConfusion h

theorem nodeGroupWrites_metrics (ngs : List GoVal) :
    ∀ (clusterId name : String), ∀ w ∈ nodeGroupWrites clusterId name ngs,
      w.metric ∈ ["pskz_k8s_nodegroup_status", "pskz_k8s_nodegroup_nodes",
                  "pskz_k8s_nodegroup_cores", "pskz_k8s_nodegroup_ram_mb"] := by
  induction ngs with
  | nil => intro cid nm w hw; simp [nodeGroupWrites] at hw
  | cons ng rest ih =>
    intro cid nm w hw
    simp only [nodeGroupWrites] at hw
    split at hw
    · exact ih cid nm w hw
    · split at hw
      · exact ih cid nm w hw
      · simp only [List.mem_cons, List.mem_append] at hw
        rcases hw with hw | (hw | hw) | hw
        · subst hw; simp
        · repeat' split at hw
          all_goals simp only [List.mem_cons, List.not_mem_nil, or_false] at hw
          all_goals (subst hw; simp)
        · repeat' split at hw
          all_goals simp only [List.mem_append, List.mem_cons, List.not_mem_nil,
            or_false, false_or] at hw
          all_goals
            first
            | (rcases hw with hw | hw <;> (subst hw; simp))
            | (subst hw; simp)
        · exact ih cid nm w hw

theorem k8sClusterItemsLoop_metrics (items : List GoVal) :
    ∀ (counts : List (String × ℕ)), ∀ w ∈ (k8sClusterItemsLoop items counts).1,
      w.metric ∈ ["pskz_k8s_cluster_status", "pskz_k8s_cluster_nodes",
                  "pskz_k8s_cluster_masters", "pskz_k8s_nodegroup_status",
                  "pskz_k8s_nodegroup_nodes", "pskz_k8s_nodegroup_cores",
                  "pskz_k8s_nodegroup_ram_mb"] := by
  induction items with
  | nil => intro counts w hw; simp [k8sClusterItemsLoop] at hw
  | cons item rest ih =>
    intro counts w hw
    simp only [k8sClusterItemsLoop] at hw
    split at hw
    · exact ih _ w hw
    · split at hw
      · exact ih _ w hw
      · simp only [List.mem_cons, List.mem_append] at hw
        rcases hw with (hw | (hw | hw) | hw) | hw
        · subst hw; simp
        · repeat' split at hw
          all_goals simp only [List.mem_cons, List.not_mem_nil, or_false] at hw
          all_goals (subst hw; simp)
        · repeat' split at hw
          all_goals simp only [List.mem_cons, List.not_mem_nil, or_false] at hw
          all_goals (subst hw; simp)
        · split at hw
          · have hng := nodeGroupWrites_metrics _ _ _ w hw
            simp only [List.mem_cons, List.not_mem_nil, or_false] at hng ⊢
            tauto
          · simp at hw
        · exact ih _ w hw

theorem processK8SClusters_metrics (d : Doc) :
    ∀ w ∈ processK8SClusters d,
      w.metric ∈ ["pskz_k8s_cluster_count", "pskz_k8s_cluster_status",
                  "pskz_k8s_cluster_nodes", "pskz_k8s_cluster_masters",
                  "pskz_k8s_nodegroup_status", "pskz_k8s_nodegroup_nodes",
                  "pskz_k8s_nodegroup_cores", "pskz_k8s_nodegroup_ram_mb"] := by
  unfold processK8SClusters
  repeat' split
  all_goals intro w hw
  all_goals simp only [List.not_mem_nil, List.mem_append, List.mem_cons,
    or_false, false_or, List.mem_map] at hw
  all_goals
    first
    | exact hw.elim
    | (subst hw; simp)
    | (rcases hw with (hw | hw) | ⟨sc, hsc1, hsc⟩
       · subst hw; simp
       · have hcl := k8sClusterItemsLoop_metrics _ _ w hw
         simp only [List.mem_cons, List.not_mem_nil, or_false] at hcl ⊢
         tauto
       · rw [← hsc]; simp)
    | (rcases hw with hw | ⟨sc, hsc1, hsc⟩
       · have hcl := k8sClusterItemsLoop_metrics _ _ w hw
         simp only [List.mem_cons, List.not_mem_nil, or_false] at hcl ⊢
         tauto
       · rw [← hsc]; simp)

/-! ## Per-stage lemmas: error gauge values and stage footprints -/

theorem untouched_of_footprint {ws : List Write} {F : List String}
    (hF : ∀ w ∈ ws, w.metric ∈ F) {n : String} (hn : n ∉ F) :
    ∀ w ∈ ws, w.metric ≠ n :=
  fun w hw he => hn (he ▸ hF w hw)

theorem lastVal_errW_cons (t : String) (v : ℚ) (ws : List Write)
    (hws : ∀ w ∈ ws, w.metric ≠ "pskz_last_scrape_error") (ls : List String) :
    lastVal (errW t v :: ws) "pskz_last_scrape_error" ls =
      if ls = [t] then some v else none := by
  have h0 := lastVal_none_of_untouched ws "pskz_last_scrape_error" ls hws
  show (match lastVal ws "pskz_last_scrape_error" ls with
        | some x => some x
        | none => if (errW t v).metric = "pskz_last_scrape_error" ∧ (errW t v).labels = ls
                  then some (errW t v).value else none) = _
  rw [h0]
  rcases eq_or_ne ls [t] with hls | hls
  · subst hls; simp [errW]
  · rw [if_neg hls, if_neg (fun hc : (errW t v).metric = "pskz_last_scrape_error" ∧
      (errW t v).labels = ls => hls hc.2.symm)]

theorem stageExtBalance_metrics (q : QResult) :
    ∀ w ∈ stageExtBalance q,
      w.metric ∈ ["pskz_last_scrape_error", "pskz_prepay_balance", "pskz_bonus_balance",
                  "pskz_blocked_balance", "pskz_credit_balance"] := by
  rcases q with e | d <;> intro w hw
  · simp only [stageExtBalance, GetAccountBalance, List.mem_cons, List.not_mem_nil,
      or_false] at hw
    subst hw; simp [errW]
  · simp only [stageExtBalance, GetAccountBalance, List.mem_cons] at hw
    rcases hw with hw | hw
    · subst hw; simp [errW]
    · have hm := processAccountBalanceInfo_metrics d w hw
      simp only [List.mem_cons, List.not_mem_nil, or_false] at hm ⊢
      tauto

theorem stageExtBalance_err (q : QResult) (ls : List String) :
    lastVal (stageExtBalance q) "pskz_last_scrape_error" ls =
      if ls = ["extended_balance_fetch_error"]
      then some (match q with | .ok _ => 0 | .error _ => 1) else none := by
  rcases q with e | d
  · exact lastVal_errW_cons _ 1 [] (by simp) ls
  · exact lastVal_errW_cons _ 0 _
      (untouched_of_footprint (processAccountBalanceInfo_metrics d) (by simp)) ls

theorem stageBalance_metrics (bal : BalanceResponse) :
    ∀ w ∈ stageBalance bal,
      w.metric ∈ ["pskz_last_scrape_error", "pskz_prepay_balance", "pskz_credit_balance",
                  "pskz_debt_balance"] := by
  intro w hw
  simp only [stageBalance, List.mem_cons, List.not_mem_nil, or_false] at hw
  rcases hw with hw | hw | hw | hw <;> (subst hw; simp [errW])

theorem stageBalance_err (bal : BalanceResponse) (ls : List String) :
    lastVal (stageBalance bal) "pskz_last_scrape_error" ls =
      if ls = ["balance_fetch_error"] then some 0 else none := by
  refine lastVal_errW_cons _ 0 _ ?_ ls
  intro w hw
  simp only [List.mem_cons, List.not_mem_nil, or_false] at hw
  rcases hw with hw | hw | hw <;> (subst hw; simp)

theorem stageDomainCounters_err (ls : List String) :
    lastVal stageDomainCounters "pskz_last_scrape_error" ls =
      if ls = ["domain_counters_fetch_error"] then some 0 else none :=
  lastVal_errW_cons _ 0 _ (by decide) ls

theorem stageProjects_err (ls : List String) :
    lastVal stageProjects "pskz_last_scrape_error" ls =
      if ls = ["projects_fetch_error"] then some 0 else none :=
  lastVal_errW_cons _ 0 _ (by decide) ls

theorem stageInvoices_metrics (q : QResult) :
    ∀ w ∈ stageInvoices q,
      w.metric ∈ ["pskz_last_scrape_error", "pskz_invoice_counters",
                  "pskz_invoice_amount"] := by
  rcases q with e | d <;> intro w hw
  · simp only [stageInvoices, GetInvoices, List.mem_cons, List.not_mem_nil,
      or_false] at hw
    subst hw; simp [errW]
  · simp only [stageInvoices, GetInvoices, List.mem_cons] at hw
    rcases hw with hw | hw
    · subst hw; simp [errW]
    · have hm := processInvoicesInfo_metrics d w hw
      simp only [List.mem_cons, List.not_mem_nil, or_false] at hm ⊢
      tauto

theorem stageInvoices_err (q : QResult) (ls : List String) :
    lastVal (stageInvoices q) "pskz_last_scrape_error" ls =
      if ls = ["invoices_fetch_error"]
      then some (match q with | .ok _ => 0 | .error _ => 1) else none := by
  rcases q with e | d
  · exact lastVal_errW_cons _ 1 [] (by simp) ls
  · exact lastVal_errW_cons _ 0 _
      (untouched_of_footprint (processInvoicesInfo_metrics d) (by simp)) ls

/-- The writes of the cloud resources stage: the fetch always returns the
stub and its processing succeeds on it. -/
def cloudResOkWrites : List Write :=
  match processCloudResources cloudResourcesStub with
  | .ok ws => errW "cloud_resources_fetch_error" 0 :: ws
  | .error _ => []

theorem stageCloudResources_eq : stageCloudResources = .ok cloudResOkWrites := rfl

theorem cloudResOkWrites_err (ls : List String) :
    lastVal cloudResOkWrites "pskz_last_scrape_error" ls =
      if ls = ["cloud_resources_fetch_error"] then some 0 else none :=
  lastVal_errW_cons _ 0 _ (by decide) ls

theorem stageCloudInstances_err (ls : List String) :
    lastVal stageCloudInstances "pskz_last_scrape_error" ls =
      if ls = ["cloud_instances_fetch_error"] then some 0 else none :=
  lastVal_errW_cons _ 0 _ (by decide) ls

/-- Whatever the query outcome, the writes the VPS status stage performs
are exactly the single error gauge write of 0: the fetch never errors, and
the processor either panics after that gauge write or completes without
writing (processVpsServersStatus_ok_empty). -/
theorem stageVpsStatus_eq1 (q : Except String (Option Doc)) :
    (stageVpsStatus q).1 = [errW "vps_servers_fetch_error" 0] := by
  have hd : ∃ d, GetVpsServersStatus q = .ok d := by
    rcases q with e | od
    · exact ⟨vpsServersStub, rfl⟩
    · rcases od with _ | r
      · exact ⟨vpsServersStub, rfl⟩
      · exact ⟨r, rfl⟩
  obtain ⟨d, hdq⟩ := hd
  unfold stageVpsStatus
  simp only [hdq]
  rcases hp : processVpsServersStatus d with e | ws
  · simp only [hp]
  · simp only [hp]
    show errW "vps_servers_fetch_error" 0 :: ws = _
    rw [processVpsServersStatus_ok_empty d ws hp]

theorem stageVpsStatus_metrics (q : Except String (Option Doc)) :
    ∀ w ∈ (stageVpsStatus q).1, w.metric = "pskz_last_scrape_error" := by
  intro w hw
  rw [stageVpsStatus_eq1] at hw
  simp only [List.mem_cons, List.not_mem_nil, or_false] at hw
  subst hw; rfl

theorem stageVpsStatus_err (q : Except String (Option Doc)) (ls : List String) :
    lastVal (stageVpsStatus q).1 "pskz_last_scrape_error" ls =
      if ls = ["vps_servers_fetch_error"] then some 0 else none := by
  rw [stageVpsStatus_eq1]
  exact lastVal_errW_cons _ 0 [] (by simp) ls

theorem stageServiceServers_metrics (sid : String) (q1 q2 : QResult) :
    ∀ w ∈ stageServiceServers sid q1 q2,
      w.metric ∈ ["pskz_last_scrape_error", "pskz_server_ram_mb", "pskz_server_cores",
                  "pskz_server_status", "pskz_server_ip_count"] := by
  intro w hw
  unfold stageServiceServers at hw
  split at hw
  · simp only [List.mem_append] at hw
    rcases hw with hw | hw <;>
      (split at hw
       · simp only [List.mem_cons, List.not_mem_nil, or_false] at hw
         subst hw; simp [errW]
       · simp only [List.mem_cons] at hw
         rcases hw with hw | hw
         · subst hw; simp [errW]
         · have hm := processServerInfo_metrics _ _ w hw
           simp only [List.mem_cons, List.not_mem_nil, or_false] at hm ⊢
           tauto)
  · simp at hw

theorem stageServiceServers_err (sid : String) (q1 q2 : QResult) (ls : List String) :
    lastVal (stageServiceServers sid q1 q2) "pskz_last_scrape_error" ls =
      if sid = "" then none
      else if ls = ["vps_servers_fetch_error"]
      then some (match q2 with | .ok _ => 0 | .error _ => 1)
      else if ls = ["vpc_servers_fetch_error"]
      then some (match q1 with | .ok _ => 0 | .error _ => 1)
      else none := by
  unfold stageServiceServers
  rcases eq_or_ne sid "" with hsid | hsid
  · simp [hsid, lastVal]
  · rw [if_pos hsid, if_neg hsid, lastVal_append]
    have h1 : lastVal (match GetCloudServers q1 with
        | .error _ => [errW "vpc_servers_fetch_error" 1]
        | .ok vpcServers => errW "vpc_servers_fetch_error" 0 :: processServerInfo vpcServers "vpc")
        "pskz_last_scrape_error" ls =
        if ls = ["vpc_servers_fetch_error"]
        then some (match q1 with | .ok _ => 0 | .error _ => 1) else none := by
      rcases q1 with e | d
      · exact lastVal_errW_cons _ 1 [] (by simp) ls
      · exact lastVal_errW_cons _ 0 _
          (untouched_of_footprint (processServerInfo_metrics d "vpc") (by simp)) ls
    have h2 : lastVal (match GetVPSServers q2 with
        | .error _ => [errW "vps_servers_fetch_error" 1]
        | .ok vpsServers => errW "vps_servers_fetch_error" 0 :: processServerInfo vpsServers "vps")
        "pskz_last_scrape_error" ls =
        if ls = ["vps_servers_fetch_error"]
        then some (match q2 with | .ok _ => 0 | .error _ => 1) else none := by
      rcases q2 with e | d
      · exact lastVal_errW_cons _ 1 [] (by simp) ls
      · exact lastVal_errW_cons _ 0 _
          (untouched_of_footprint (processServerInfo_metrics d "vps") (by simp)) ls
    rw [h1, h2]
    rcases eq_or_ne ls ["vps_servers_fetch_error"] with h | h
    · simp [h]
    · rcases eq_or_ne ls ["vpc_servers_fetch_error"] with h2 | h2 <;> simp [h, h2]

theorem stageK8sClusters_metrics (q : Except String (Option Doc)) :
    ∀ w ∈ stageK8sClusters q,
      w.metric ∈ ["pskz_last_scrape_error", "pskz_k8s_cluster_count",
                  "pskz_k8s_cluster_status", "pskz_k8s_cluster_nodes",
                  "pskz_k8s_cluster_masters", "pskz_k8s_nodegroup_status",
                  "pskz_k8s_nodegroup_nodes", "pskz_k8s_nodegroup_cores",
                  "pskz_k8s_nodegroup_ram_mb"] := by
  intro w hw
  have hd : ∃ d, GetK8SClusters q = .ok d := by
    rcases q with e | od
    · exact ⟨k8sClustersStub, rfl⟩
    · rcases od with _ | r
      · exact ⟨k8sClustersStub, rfl⟩
      · exact ⟨r, rfl⟩
  obtain ⟨d, hdq⟩ := hd
  simp only [stageK8sClusters, hdq, List.mem_cons] at hw
  rcases hw with hw | hw
  · subst hw; simp [errW]
  · have hm := processK8SClusters_metrics d w hw
    simp only [List.mem_cons, List.not_mem_nil, or_false] at hm ⊢
    tauto

theorem stageK8sClusters_err (q : Except String (Option Doc)) (ls : List String) :
    lastVal (stageK8sClusters q) "pskz_last_scrape_error" ls =
      if ls = ["k8s_clusters_fetch_error"] then some 0 else none := by
  have hd : ∃ d, GetK8SClusters q = .ok d := by
    rcases q with e | od
    · exact ⟨k8sClustersStub, rfl⟩
    · rcases od with _ | r
      · exact ⟨k8sClustersStub, rfl⟩
      · exact ⟨r, rfl⟩
  obtain ⟨d, hdq⟩ := hd
  show lastVal (match GetK8SClusters q with
      | .error _ => [errW "k8s_clusters_fetch_error" 1]
      | .ok k8sClusters => errW "k8s_clusters_fetch_error" 0 :: processK8SClusters k8sClusters)
      "pskz_last_scrape_error" ls = _
  rw [hdq]
  exact lastVal_errW_cons _ 0 _
    (untouched_of_footprint (processK8SClusters_metrics d) (by simp)) ls

theorem stageK8sProjects_err (q : Except String (Option Doc)) (ls : List String) :
    lastVal (stageK8sProjects q).1 "pskz_last_scrape_error" ls =
      if ls = ["k8s_projects_fetch_error"] then some 0 else none := by
  have hd : ∃ d, GetK8SProjects q = .ok d := by
    rcases q with e | od
    · exact ⟨k8sProjectsStub, rfl⟩
    · rcases od with _ | r
      · exact ⟨k8sProjectsStub, rfl⟩
      · exact ⟨r, rfl⟩
  obtain ⟨d, hdq⟩ := hd
  show lastVal (match GetK8SProjects q with
      | .error _ => ([errW "k8s_projects_fetch_error" 1], [])
      | .ok k8sProjects =>
          ([errW "k8s_projects_fetch_error" 0], processK8SProjects k8sProjects)).1
      "pskz_last_scrape_error" ls = _
  rw [hdq]
  exact lastVal_errW_cons _ 0 [] (by simp) ls

theorem stageLBaaS_err (ls : List String) :
    lastVal stageLBaaS "pskz_last_scrape_error" ls =
      if ls = ["lbaas_loadbalancers_fetch_error"] then some 0 else none :=
  lastVal_errW_cons _ 0 _ (by decide) ls

/-! ## Cycle-level decomposition lemmas -/

/-- The all-empty metric state. -/
def emptyState : MState := fun _ => []

/-- A date parser that fails on every input. -/
def parseDaysNone : String → Option ℚ := fun _ => none

theorem lastVal_none_of_metrics {ws : List Write} {F : List String} {n : String}
    {ls : List String} (hF : ∀ w ∈ ws, w.metric ∈ F) (hn : n ∉ F) :
    lastVal ws n ls = none :=
  lastVal_none_of_untouched ws n ls (untouched_of_footprint hF hn)

theorem applyFor_append (n : String) (v : GaugeVec) (a c : List Write) :
    applyFor n v (a ++ c) = applyFor n (applyFor n v a) c := by
  simp [applyFor, List.foldl_append]

/-- The success-path shape of a cycle: balance and domains both fetched
successfully and no panic escaped the VPS status processing. -/
theorem writesOf_ok (b : Backend) (sid : String) (pd : String → Option ℚ)
    (info : BalanceInfo) (hb : b.balanceQ = .ok info) (ad : Doc)
    (hd : b.domainsAuthQ = .ok ad)
    (hv : (stageVpsStatus b.vpsStatusQ).2 = none) :
    writesOf b sid pd =
      stageExtBalance b.extBalanceQ ++
      (stageBalance ⟨info.balance, info.credit.credit, 0⟩ ++
       (stageDomainCounters ++
        ([errW "domains_fetch_error" 0] ++
         (stageProjects ++
          (stageInvoices b.invoicesQ ++
           (cloudResOkWrites ++
            (stageCloudInstances ++
             ((stageVpsStatus b.vpsStatusQ).1 ++
              (stageServiceServers sid b.vpcServersQ b.vpsServersQ ++
               (stageK8sClusters b.k8sClustersQ ++
                ((stageK8sProjects b.k8sProjectsQ).1 ++
                 (stageLBaaS ++ [successW 1])))))))))))) := by
  unfold writesOf collectWrites
  rw [hb, hd]
  simp [GetBalance, GetDomains, GetAccountBalance, stageCloudResources_eq, domainsLoop,
    hv]

/-- The panic-abort shape of a cycle: balance and domains fetched
successfully, then the label cardinality panic escaped the VPS status
processing; the cycle stops after the VPS stage's error gauge write, the
success gauge is never set. -/
theorem writesOf_vps_panic (b : Backend) (sid : String) (pd : String → Option ℚ)
    (info : BalanceInfo) (hb : b.balanceQ = .ok info) (ad : Doc)
    (hd : b.domainsAuthQ = .ok ad) (e : String)
    (hv : (stageVpsStatus b.vpsStatusQ).2 = some e) :
    writesOf b sid pd =
      stageExtBalance b.extBalanceQ ++
      (stageBalance ⟨info.balance, info.credit.credit, 0⟩ ++
       (stageDomainCounters ++
        ([errW "domains_fetch_error" 0] ++
         (stageProjects ++
          (stageInvoices b.invoicesQ ++
           (cloudResOkWrites ++
            (stageCloudInstances ++ (stageVpsStatus b.vpsStatusQ).1))))))) := by
  unfold writesOf collectWrites
  rw [hb, hd]
  simp [GetBalance, GetDomains, GetAccountBalance, stageCloudResources_eq, domainsLoop,
    hv]

/-- The early-return shape when the balance fetch fails
(part_004 lines 607-618). -/
theorem writesOf_balance_err (b : Backend) (sid : String) (pd : String → Option ℚ)
    (e : String) (hb : b.balanceQ = .error e) :
    writesOf b sid pd =
      stageExtBalance b.extBalanceQ ++ [errW "balance_fetch_error" 1, successW 0] := by
  unfold writesOf collectWrites
  rw [hb]
  simp [GetBalance]

/-- The early-return shape when the domains fetch fails
(part_004 lines 636-650). -/
theorem writesOf_domains_err (b : Backend) (sid : String) (pd : String → Option ℚ)
    (info : BalanceInfo) (hb : b.balanceQ = .ok info)
    (e : String) (hd : b.domainsAuthQ = .error e) :
    writesOf b sid pd =
      stageExtBalance b.extBalanceQ ++
      (stageBalance ⟨info.balance, info.credit.credit, 0⟩ ++
       (stageDomainCounters ++ [errW "domains_fetch_error" 1, successW 0])) := by
  unfold writesOf collectWrites
  rw [hb, hd]
  simp [GetBalance, GetDomains, GetAccountBalance]

/-! ## The claims -/

/-- C5: at the start of every Collect cycle every processor-owned metric
vector is reset before any source is fetched or any value written, so the
vector contents after a cycle do not depend on the prior state, and the
label combinations present after the cycle are exactly the ones written
during it. -/
theorem collect_reset_no_stale (b : Backend) (sid : String)
    (pd : String → Option ℚ) (s1 s2 : MState) (n : String)
    (hn : n ∈ processorOwnedMetrics) :
    runCollect b sid pd s1 n = runCollect b sid pd s2 n ∧
    ∀ ls, (∃ x, (ls, x) ∈ runCollect b sid pd s1 n) ↔
          (∃ x, (⟨n, ls, x⟩ : Write) ∈ writesOf b sid pd) := by
  have key : ∀ s : MState, runCollect b sid pd s n =
      applyFor n [] (writesOf b sid pd) := by
    intro s
    show applyWrites (resetAll s) (writesOf b sid pd) n = _
    rw [applyWrites_apply, resetAll_owned s n hn]
  constructor
  · rw [key s1, key s2]
  · intro ls
    rw [key s1, ← gaugeVal_isSome_iff, gaugeVal_applyFor]
    show ((lastVal (writesOf b sid pd) n ls).or (gaugeVal [] ls)).isSome ↔ _
    have : gaugeVal ([] : GaugeVec) ls = none := rfl
    rw [this, Option.or_none, lastVal_isSome_iff]

theorem stageK8sProjects_metrics (q : Except String (Option Doc)) :
    ∀ w ∈ (stageK8sProjects q).1, w.metric = "pskz_last_scrape_error" := by
  intro w hw
  rcases q with e | od
  · simp only [stageK8sProjects, GetK8SProjects, List.mem_cons, List.not_mem_nil,
      or_false] at hw
    subst hw; rfl
  · rcases od with _ | r <;>
    · simp only [stageK8sProjects, GetK8SProjects, List.mem_cons, List.not_mem_nil,
        or_false] at hw
      subst hw; rfl

theorem lastVal_append_none {a c : List Write} {n : String} {ls : List String}
    (ha : lastVal a n ls = none) (hc : lastVal c n ls = none) :
    lastVal (a ++ c) n ls = none := by
  rw [lastVal_append, ha, hc]; rfl

/-- Literal value of the domain counters stage: the stub document carries
all four counters as zero. -/
theorem stageDomainCounters_eq :
    stageDomainCounters =
      [errW "domain_counters_fetch_error" 0,
       ⟨"pskz_domain_counters", ["total"], 0⟩,
       ⟨"pskz_domain_counters", ["active"], 0⟩,
       ⟨"pskz_domain_counters", ["expired"], 0⟩,
       ⟨"pskz_domain_counters", ["pending"], 0⟩] := rfl

/-- Literal value of the projects stage: the stub has no items. -/
theorem stageProjects_eq : stageProjects = [errW "projects_fetch_error" 0] := rfl

/-- Literal value of the cloud resources stage: the stub summary yields nine
zero gauges. -/
theorem cloudResOkWrites_eq :
    cloudResOkWrites =
      [errW "cloud_resources_fetch_error" 0,
       ⟨"pskz_cloud_summary", ["cpu_cores"], 0⟩,
       ⟨"pskz_cloud_summary", ["ram_gb"], 0⟩,
       ⟨"pskz_cloud_summary", ["instances_count"], 0⟩,
       ⟨"pskz_cloud_summary", ["volumes_count"], 0⟩,
       ⟨"pskz_cloud_summary", ["volumes_size_gb"], 0⟩,
       ⟨"pskz_cloud_summary", ["networks_count"], 0⟩,
       ⟨"pskz_cloud_summary", ["floating_ips_count"], 0⟩,
       ⟨"pskz_cloud_summary", ["security_groups_count"], 0⟩,
       ⟨"pskz_cloud_summary", ["routers_count"], 0⟩] := rfl

/-- Literal value of the cloud instances stage: the stub has no items. -/
theorem stageCloudInstances_eq :
    stageCloudInstances = [errW "cloud_instances_fetch_error" 0] := rfl

/-- Literal value of the LBaaS stage: the stub yields a zero total count. -/
theorem stageLBaaS_eq :
    stageLBaaS = [errW "lbaas_loadbalancers_fetch_error" 0,
                  ⟨"pskz_lbaas_loadbalancer_count", ["total"], 0⟩] := rfl

/-- Every metric name ever written by any cycle path; the domain expiry and
domain status vectors are absent because the domains fetch always returns an
empty item list. -/
def writeableMetrics : List String :=
  ["pskz_last_scrape_error", "pskz_scrape_success",
   "pskz_prepay_balance", "pskz_credit_balance", "pskz_debt_balance",
   "pskz_bonus_balance", "pskz_blocked_balance", "pskz_domain_counters",
   "pskz_invoice_counters", "pskz_invoice_amount",
   "pskz_cloud_quota", "pskz_cloud_summary", "pskz_cloud_instance_info",
   "pskz_vps_server_status", "pskz_vps_server_ram_mb", "pskz_vps_server_cores",
   "pskz_server_ram_mb", "pskz_server_cores", "pskz_server_status",
   "pskz_server_ip_count",
   "pskz_k8s_cluster_count", "pskz_k8s_cluster_status", "pskz_k8s_cluster_nodes",
   "pskz_k8s_cluster_masters", "pskz_k8s_nodegroup_status",
   "pskz_k8s_nodegroup_nodes", "pskz_k8s_nodegroup_cores",
   "pskz_k8s_nodegroup_ram_mb",
   "pskz_lbaas_loadbalancer_count", "pskz_lbaas_loadbalancer_status",
   "pskz_lbaas_listeners_count", "pskz_lbaas_pools_count",
   "pskz_lbaas_members_count", "pskz_lbaas_flavor", "pskz_lbaas_floating_ip"]

theorem extBalanceF_sub :
    ∀ x ∈ ["pskz_last_scrape_error", "pskz_prepay_balance", "pskz_bonus_balance",
           "pskz_blocked_balance", "pskz_credit_balance"], x ∈ writeableMetrics := by
  intro x hx; fin_cases hx <;> simp [writeableMetrics]

theorem balanceF_sub :
    ∀ x ∈ ["pskz_last_scrape_error", "pskz_prepay_balance", "pskz_credit_balance",
           "pskz_debt_balance"], x ∈ writeableMetrics := by
  intro x hx; fin_cases hx <;> simp [writeableMetrics]

theorem invoicesF_sub :
    ∀ x ∈ ["pskz_last_scrape_error", "pskz_invoice_counters", "pskz_invoice_amount"],
      x ∈ writeableMetrics := by
  intro x hx; fin_cases hx <;> simp [writeableMetrics]

theorem serverF_sub :
    ∀ x ∈ ["pskz_last_scrape_error", "pskz_server_ram_mb", "pskz_server_cores",
           "pskz_server_status", "pskz_server_ip_count"], x ∈ writeableMetrics := by
  intro x hx; fin_cases hx <;> simp [writeableMetrics]

theorem k8sF_sub :
    ∀ x ∈ ["pskz_last_scrape_error", "pskz_k8s_cluster_count", "pskz_k8s_cluster_status",
           "pskz_k8s_cluster_nodes", "pskz_k8s_cluster_masters", "pskz_k8s_nodegroup_status",
           "pskz_k8s_nodegroup_nodes", "pskz_k8s_nodegroup_cores",
           "pskz_k8s_nodegroup_ram_mb"], x ∈ writeableMetrics := by
  intro x hx; fin_cases hx <;> simp [writeableMetrics]

set_option maxHeartbeats 1000000 in
theorem writesOf_metrics (b : Backend) (sid : String) (pd : String → Option ℚ) :
    ∀ w ∈ writesOf b sid pd, w.metric ∈ writeableMetrics := by
  intro w hw
  have hexts : ∀ w ∈ stageExtBalance b.extBalanceQ, w.metric ∈ writeableMetrics :=
    fun w hw => extBalanceF_sub _ (stageExtBalance_metrics b.extBalanceQ w hw)
  rcases hbq : b.balanceQ with e | info
  · rw [writesOf_balance_err b sid pd e hbq] at hw
    simp only [List.mem_append, List.mem_cons, List.not_mem_nil, or_false] at hw
    rcases hw with hw | hw | hw
    · exact hexts w hw
    · subst hw; simp [errW, writeableMetrics]
    · subst hw; simp [successW, writeableMetrics]
  · have hbals : ∀ w ∈ stageBalance ⟨info.balance, info.credit.credit, 0⟩,
        w.metric ∈ writeableMetrics := by
      intro w hw
      have hm := stageBalance_metrics _ w hw
      simp only [List.mem_cons, List.not_mem_nil, or_false, writeableMetrics] at hm ⊢
      tauto
    have hdcs : ∀ w ∈ stageDomainCounters, w.metric ∈ writeableMetrics := by
      rw [stageDomainCounters_eq]; intro w hw; fin_cases hw <;> simp [writeableMetrics, errW]
    rcases hdq : b.domainsAuthQ with e | ad
    · rw [writesOf_domains_err b sid pd info hbq e hdq] at hw
      simp only [List.mem_append, List.mem_cons, List.not_mem_nil, or_false] at hw
      rcases hw with hw | hw | hw | hw | hw
      · exact hexts w hw
      · exact hbals w hw
      · exact hdcs w hw
      · subst hw; simp [errW, writeableMetrics]
      · subst hw; simp [successW, writeableMetrics]
    · rcases hvq : (stageVpsStatus b.vpsStatusQ).2 with _ | e
      · rw [writesOf_ok b sid pd info hbq ad hdq hvq] at hw
        simp only [List.mem_append, List.mem_cons, List.not_mem_nil, or_false] at hw
        rcases hw with hw | hw | hw | hw | hw | hw | hw | hw | hw | hw | hw | hw | hw | hw
        · exact hexts w hw
        · exact hbals w hw
        · exact hdcs w hw
        · subst hw; simp [errW, writeableMetrics]
        · rw [stageProjects_eq] at hw; fin_cases hw <;> simp [writeableMetrics, errW]
        · exact invoicesF_sub _ (stageInvoices_metrics b.invoicesQ w hw)
        · rw [cloudResOkWrites_eq] at hw; fin_cases hw <;> simp [writeableMetrics, errW]
        · rw [stageCloudInstances_eq] at hw; fin_cases hw <;> simp [writeableMetrics, errW]
        · rw [stageVpsStatus_eq1] at hw; fin_cases hw <;> simp [writeableMetrics, errW]
        · exact serverF_sub _ (stageServiceServers_metrics sid b.vpcServersQ b.vpsServersQ w hw)
        · exact k8sF_sub _ (stageK8sClusters_metrics b.k8sClustersQ w hw)
        · have hm := stageK8sProjects_metrics b.k8sProjectsQ w hw
          simp [writeableMetrics, hm]
        · rw [stageLBaaS_eq] at hw; fin_cases hw <;> simp [writeableMetrics, errW]
        · subst hw; simp [successW, writeableMetrics]
      · rw [writesOf_vps_panic b sid pd info hbq ad hdq e hvq] at hw
        simp only [List.mem_append, List.mem_cons, List.not_mem_nil, or_false] at hw
        rcases hw with hw | hw | hw | hw | hw | hw | hw | hw | hw
        · exact hexts w hw
        · exact hbals w hw
        · exact hdcs w hw
        · subst hw; simp [errW, writeableMetrics]
        · rw [stageProjects_eq] at hw; fin_cases hw <;> simp [writeableMetrics, errW]
        · exact invoicesF_sub _ (stageInvoices_metrics b.invoicesQ w hw)
        · rw [cloudResOkWrites_eq] at hw; fin_cases hw <;> simp [writeableMetrics, errW]
        · rw [stageCloudInstances_eq] at hw; fin_cases hw <;> simp [writeableMetrics, errW]
        · rw [stageVpsStatus_eq1] at hw; fin_cases hw <;> simp [writeableMetrics, errW]

/-- C9: every successful GetDomains call returns an empty domain list (the
real domain query is never issued), it fails exactly when the internal
authentication check fails, and consequently the domain expiry and domain
status vectors are empty after every cycle, whatever the backend did. -/
theorem getDomains_stub_and_empty_vectors :
    (∀ (q : QResult) (items : List DomainItem), GetDomains q = .ok items → items = []) ∧
    (∀ q : QResult, (GetDomains q).isOk = (GetAccountBalance q).isOk) ∧
    (∀ (b : Backend) (sid : String) (pd : String → Option ℚ) (s : MState),
      runCollect b sid pd s "pskz_domain_expiry_days" = [] ∧
      runCollect b sid pd s "pskz_domain_status" = []) := by
  refine ⟨?_, ?_, ?_⟩
  · intro q items h
    rcases q with e | d
    · simp [GetDomains, GetAccountBalance] at h
    · simp only [GetDomains, GetAccountBalance, Except.ok.injEq] at h
      exact h.symm
  · intro q; rcases q with e | d <;> rfl
  · intro b sid pd s
    constructor <;>
    · show applyWrites (resetAll s) (writesOf b sid pd) _ = []
      rw [applyWrites_apply, resetAll_owned s _ (by decide)]
      exact applyFor_untouched _ [] _
        (untouched_of_footprint (writesOf_metrics b sid pd) (by decide))

/-- C9 witness. -/
theorem getDomains_stub_and_empty_vectors_witness :
    GetDomains (.ok []) = .ok [] ∧
    runCollect { extBalanceQ := .ok [], balanceQ := .ok ⟨5, 2, 1, ⟨0, 0, 0, ""⟩⟩,
                 domainsAuthQ := .ok [], invoicesQ := .ok [], vpsStatusQ := .ok none,
                 vpcServersQ := .ok [], vpsServersQ := .ok [], k8sClustersQ := .ok none,
                 k8sProjectsQ := .ok none } "" parseDaysNone emptyState
      "pskz_domain_expiry_days" = [] := by
  constructor
  · exact ((getDomains_stub_and_empty_vectors.1 (.ok []) []) rfl) ▸ rfl
  · exact (getDomains_stub_and_empty_vectors.2.2 _ "" parseDaysNone emptyState).1

theorem stageBalance_debt (bal : BalanceResponse) :
    lastVal (stageBalance bal) "pskz_debt_balance" ["default"] = some bal.debt := by
  simp [stageBalance, lastVal, errW]

/-- C10: GetBalance hard codes the debt component to zero, so whenever the
balance fetch succeeds the cycle publishes pskz_debt_balance as exactly 0,
whatever the backend reported. -/
theorem getBalance_debt_always_zero :
    (∀ (q : Except String BalanceInfo) (r : BalanceResponse),
        GetBalance q = .ok r → r.debt = 0) ∧
    (∀ (b : Backend) (sid : String) (pd : String → Option ℚ) (s : MState)
        (info : BalanceInfo), b.balanceQ = .ok info →
        gaugeVal (runCollect b sid pd s "pskz_debt_balance") ["default"] = some 0) := by
  constructor
  · intro q r h
    rcases q with e | i
    · simp [GetBalance] at h
    · simp only [GetBalance, Except.ok.injEq] at h
      rw [← h]
  · intro b sid pd s info hb
    have hreset : resetAll s "pskz_debt_balance" = [] := resetAll_owned s _ (by decide)
    show gaugeVal (applyWrites (resetAll s) (writesOf b sid pd) "pskz_debt_balance") _ = _
    rw [applyWrites_apply, hreset, gaugeVal_applyFor]
    have hgv : gaugeVal ([] : GaugeVec) ["default"] = none := rfl
    rw [hgv, Option.or_none]
    have hDC : lastVal stageDomainCounters "pskz_debt_balance" ["default"] = none := by
      rw [stageDomainCounters_eq]; decide
    have hBal : lastVal (stageBalance ⟨info.balance, info.credit.credit, 0⟩)
        "pskz_debt_balance" ["default"] = some 0 := stageBalance_debt _
    rcases hdq : b.domainsAuthQ with e | ad
    · rw [writesOf_domains_err b sid pd info hb e hdq]
      rw [lastVal_append, lastVal_append, lastVal_append, hDC, hBal]
      rfl
    · have hvps : lastVal (stageVpsStatus b.vpsStatusQ).1
          "pskz_debt_balance" ["default"] = none := by
        rw [stageVpsStatus_eq1]; decide
      rcases hvq : (stageVpsStatus b.vpsStatusQ).2 with _ | e
      · rw [writesOf_ok b sid pd info hb ad hdq hvq]
        have htail : lastVal
            ([errW "domains_fetch_error" 0] ++
             (stageProjects ++
              (stageInvoices b.invoicesQ ++
               (cloudResOkWrites ++
                (stageCloudInstances ++
                 ((stageVpsStatus b.vpsStatusQ).1 ++
                  (stageServiceServers sid b.vpcServersQ b.vpsServersQ ++
                   (stageK8sClusters b.k8sClustersQ ++
                    ((stageK8sProjects b.k8sProjectsQ).1 ++
                     (stageLBaaS ++ [successW 1]))))))))))
            "pskz_debt_balance" ["default"] = none := by
          refine lastVal_append_none (by decide) ?_
          refine lastVal_append_none (by rw [stageProjects_eq]; decide) ?_
          refine lastVal_append_none
            (lastVal_none_of_metrics (stageInvoices_metrics b.invoicesQ) (by simp)) ?_
          refine lastVal_append_none (by rw [cloudResOkWrites_eq]; decide) ?_
          refine lastVal_append_none (by rw [stageCloudInstances_eq]; decide) ?_
          refine lastVal_append_none hvps ?_
          refine lastVal_append_none
            (lastVal_none_of_metrics
              (stageServiceServers_metrics sid b.vpcServersQ b.vpsServersQ) (by simp)) ?_
          refine lastVal_append_none
            (lastVal_none_of_metrics (stageK8sClusters_metrics b.k8sClustersQ) (by simp)) ?_
          refine lastVal_append_none
            (lastVal_none_of_untouched _ _ _ (fun w hw => by
              rw [stageK8sProjects_metrics b.k8sProjectsQ w hw]; simp)) ?_
          exact lastVal_append_none (by rw [stageLBaaS_eq]; decide) (by decide)
        rw [lastVal_append, lastVal_append, lastVal_append, hDC, hBal, htail]
        rfl
      · rw [writesOf_vps_panic b sid pd info hb ad hdq e hvq]
        have htail : lastVal
            ([errW "domains_fetch_error" 0] ++
             (stageProjects ++
              (stageInvoices b.invoicesQ ++
               (cloudResOkWrites ++
                (stageCloudInstances ++ (stageVpsStatus b.vpsStatusQ).1)))))
            "pskz_debt_balance" ["default"] = none := by
          refine lastVal_append_none (by decide) ?_
          refine lastVal_append_none (by rw [stageProjects_eq]; decide) ?_
          refine lastVal_append_none
            (lastVal_none_of_metrics (stageInvoices_metrics b.invoicesQ) (by simp)) ?_
          refine lastVal_append_none (by rw [cloudResOkWrites_eq]; decide) ?_
          exact lastVal_append_none (by rw [stageCloudInstances_eq]; decide) hvps
        rw [lastVal_append, lastVal_append, lastVal_append, hDC, hBal, htail]
        rfl

/-- C10 witness. -/
theorem getBalance_debt_always_zero_witness :
    GetBalance (.ok ⟨100, 7, 3, ⟨1, 2, 3, "2026-01-01"⟩⟩) = .ok ⟨100, 2, 0⟩ ∧
    gaugeVal (runCollect
      { extBalanceQ := .error "boom", balanceQ := .ok ⟨100, 7, 3, ⟨1, 2, 3, "2026-01-01"⟩⟩,
        domainsAuthQ := .ok [], invoicesQ := .error "bad", vpsStatusQ := .error "down",
        vpcServersQ := .ok [], vpsServersQ := .ok [], k8sClustersQ := .error "down",
        k8sProjectsQ := .ok none } "" parseDaysNone emptyState "pskz_debt_balance")
      ["default"] = some 0 := by
  constructor
  · have := getBalance_debt_always_zero.1 (.ok ⟨100, 7, 3, ⟨1, 2, 3, "2026-01-01"⟩⟩)
      ⟨100, 2, 0⟩
    rfl
  · exact getBalance_debt_always_zero.2 _ "" parseDaysNone emptyState
      ⟨100, 7, 3, ⟨1, 2, 3, "2026-01-01"⟩⟩ rfl

/-- C4: the fetches for domain counters, projects, cloud resources and cloud
instances unconditionally return their zero-valued placeholder documents
with a nil error; the fetches for VPS status, Kubernetes clusters and
Kubernetes projects substitute their placeholders with a nil error whenever
the query fails, and the LBaaS fetch never issues a query at all; so each of
these stages always records success (error gauge 0) in the cycle. -/
theorem stub_sources_never_fail :
    (GetDomainCounters = .ok domainCountersStub) ∧
    (GetProjects = .ok projectsStub) ∧
    (GetCloudResources = .ok cloudResourcesStub) ∧
    (GetCloudInstances = .ok cloudInstancesStub) ∧
    (GetLBaaSLoadBalancers = .ok lbaasStub) ∧
    (∀ q, (GetVpsServersStatus q).isOk = true ∧
          ∀ e, q = .error e → GetVpsServersStatus q = .ok vpsServersStub) ∧
    (∀ q, (GetK8SClusters q).isOk = true ∧
          ∀ e, q = .error e → GetK8SClusters q = .ok k8sClustersStub) ∧
    (∀ q, (GetK8SProjects q).isOk = true ∧
          ∀ e, q = .error e → GetK8SProjects q = .ok k8sProjectsStub) ∧
    (∀ q, lastVal (stageVpsStatus q).1 "pskz_last_scrape_error"
        ["vps_servers_fetch_error"] = some 0) ∧
    (∀ q, lastVal (stageK8sClusters q) "pskz_last_scrape_error"
        ["k8s_clusters_fetch_error"] = some 0) ∧
    (∀ q, lastVal (stageK8sProjects q).1 "pskz_last_scrape_error"
        ["k8s_projects_fetch_error"] = some 0) ∧
    (lastVal stageDomainCounters "pskz_last_scrape_error"
        ["domain_counters_fetch_error"] = some 0) ∧
    (lastVal stageProjects "pskz_last_scrape_error" ["projects_fetch_error"] = some 0) ∧
    (lastVal cloudResOkWrites "pskz_last_scrape_error"
        ["cloud_resources_fetch_error"] = some 0) ∧
    (lastVal stageCloudInstances "pskz_last_scrape_error"
        ["cloud_instances_fetch_error"] = some 0) ∧
    (lastVal stageLBaaS "pskz_last_scrape_error"
        ["lbaas_loadbalancers_fetch_error"] = some 0) := by
  refine ⟨rfl, rfl, rfl, rfl, rfl, ?_, ?_, ?_, ?_, ?_, ?_, ?_, ?_, ?_, ?_, ?_⟩
  · intro q
    constructor
    · rcases q with e | od
      · rfl
      · rcases od with _ | r <;> rfl
    · intro e he; subst he; rfl
  · intro q
    constructor
    · rcases q with e | od
      · rfl
      · rcases od with _ | r <;> rfl
    · intro e he; subst he; rfl
  · intro q
    constructor
    · rcases q with e | od
      · rfl
      · rcases od with _ | r <;> rfl
    · intro e he; subst he; rfl
  · intro q; rw [stageVpsStatus_err]; rfl
  · intro q; rw [stageK8sClusters_err]; rfl
  · intro q; rw [stageK8sProjects_err]; rfl
  · rw [stageDomainCounters_err]; rfl
  · rw [stageProjects_err]; rfl
  · rw [cloudResOkWrites_err]; rfl
  · rw [stageCloudInstances_err]; rfl
  · rw [stageLBaaS_err]; rfl

/-- C4 witness. -/
theorem stub_sources_never_fail_witness :
    GetVpsServersStatus (.error "network unreachable") = .ok vpsServersStub ∧
    lastVal (stageK8sClusters (.error "network unreachable")) "pskz_last_scrape_error"
      ["k8s_clusters_fetch_error"] = some 0 :=
  ⟨(stub_sources_never_fail.2.2.2.2.2.1 (.error "network unreachable")).2
      "network unreachable" rfl,
   stub_sources_never_fail.2.2.2.2.2.2.2.2.2.1 (.error "network unreachable")⟩

theorem lastVal_errW_singleton (t : String) (v : ℚ) (ls : List String) :
    lastVal [errW t v] "pskz_last_scrape_error" ls = if ls = [t] then some v else none :=
  lastVal_errW_cons t v [] (by simp) ls

theorem lastVal_successW_err (v : ℚ) (ls : List String) :
    lastVal [successW v] "pskz_last_scrape_error" ls = none := by
  simp [lastVal, successW]

theorem lastVal_successW_self (v : ℚ) :
    lastVal [successW v] "pskz_scrape_success" [] = some v := rfl

theorem option_some_or (a : ℚ) (o : Option ℚ) : (some a).or o = some a := rfl

theorem option_none_or (o : Option ℚ) : Option.or none o = o := by
  rcases o with _ | x <;> rfl

theorem gaugeVal_runCollect_of_lastVal (b : Backend) (sid : String)
    (pd : String → Option ℚ) (s : MState) (n : String) (ls : List String) (v : ℚ)
    (h : lastVal (writesOf b sid pd) n ls = some v) :
    gaugeVal (runCollect b sid pd s n) ls = some v := by
  show gaugeVal (applyWrites (resetAll s) (writesOf b sid pd) n) ls = _
  rw [applyWrites_apply, gaugeVal_applyFor, h]
  rfl

/-- C1 (amended): provided both critical fetches (balance and domains)
succeed and no panic escapes the VPS status processing — which requires the
VPS status document to carry no server item, because any object item makes
the loop pass three label values to the two-label vps_server_status vector
and panic, aborting the cycle before the success gauge is set — every other
source is fetched and recorded no matter how many of them fail: the cycle
completes with scrape_success 1, each failing non-critical source only sets
its own error gauge to 1, and every non-critical source's gauge is written
during the cycle. -/
theorem collect_noncritical_bulkhead (b : Backend) (sid : String)
    (pd : String → Option ℚ) (s : MState) (info : BalanceInfo) (ad : Doc)
    (hb : b.balanceQ = .ok info) (hd : b.domainsAuthQ = .ok ad)
    (hv : (stageVpsStatus b.vpsStatusQ).2 = none) :
    gaugeVal (runCollect b sid pd s "pskz_scrape_success") [] = some 1 ∧
    gaugeVal (runCollect b sid pd s "pskz_last_scrape_error")
      ["extended_balance_fetch_error"] =
      some (match b.extBalanceQ with | .ok _ => 0 | .error _ => 1) ∧
    gaugeVal (runCollect b sid pd s "pskz_last_scrape_error")
      ["invoices_fetch_error"] =
      some (match b.invoicesQ with | .ok _ => 0 | .error _ => 1) ∧
    (sid ≠ "" →
      gaugeVal (runCollect b sid pd s "pskz_last_scrape_error")
        ["vpc_servers_fetch_error"] =
        some (match b.vpcServersQ with | .ok _ => 0 | .error _ => 1) ∧
      gaugeVal (runCollect b sid pd s "pskz_last_scrape_error")
        ["vps_servers_fetch_error"] =
        some (match b.vpsServersQ with | .ok _ => 0 | .error _ => 1)) ∧
    (sid = "" →
      gaugeVal (runCollect b sid pd s "pskz_last_scrape_error")
        ["vps_servers_fetch_error"] = some 0) ∧
    ∀ t ∈ ["domain_counters_fetch_error", "projects_fetch_error",
           "cloud_resources_fetch_error", "cloud_instances_fetch_error",
           "k8s_clusters_fetch_error", "k8s_projects_fetch_error",
           "lbaas_loadbalancers_fetch_error"],
      gaugeVal (runCollect b sid pd s "pskz_last_scrape_error") [t] = some 0 := by
  refine ⟨?_, ?_, ?_, ?_, ?_, ?_⟩
  · refine gaugeVal_runCollect_of_lastVal b sid pd s _ _ _ ?_
    rw [writesOf_ok b sid pd info hb ad hd hv]
    simp only [lastVal_append, lastVal_successW_self, option_some_or]
  · refine gaugeVal_runCollect_of_lastVal b sid pd s _ _ _ ?_
    rw [writesOf_ok b sid pd info hb ad hd hv]
    simp only [lastVal_append, stageExtBalance_err, stageBalance_err,
      stageDomainCounters_err, lastVal_errW_singleton, stageProjects_err,
      stageInvoices_err, cloudResOkWrites_err, stageCloudInstances_err,
      stageVpsStatus_err, stageServiceServers_err, stageK8sClusters_err,
      stageK8sProjects_err, stageLBaaS_err, lastVal_successW_err]
    simp [option_some_or, option_none_or]
  · refine gaugeVal_runCollect_of_lastVal b sid pd s _ _ _ ?_
    rw [writesOf_ok b sid pd info hb ad hd hv]
    simp only [lastVal_append, stageExtBalance_err, stageBalance_err,
      stageDomainCounters_err, lastVal_errW_singleton, stageProjects_err,
      stageInvoices_err, cloudResOkWrites_err, stageCloudInstances_err,
      stageVpsStatus_err, stageServiceServers_err, stageK8sClusters_err,
      stageK8sProjects_err, stageLBaaS_err, lastVal_successW_err]
    simp [option_some_or, option_none_or]
  · intro hsid
    constructor <;>
    · refine gaugeVal_runCollect_of_lastVal b sid pd s _ _ _ ?_
      rw [writesOf_ok b sid pd info hb ad hd hv]
      simp only [lastVal_append, stageExtBalance_err, stageBalance_err,
        stageDomainCounters_err, lastVal_errW_singleton, stageProjects_err,
        stageInvoices_err, cloudResOkWrites_err, stageCloudInstances_err,
        stageVpsStatus_err, stageServiceServers_err, stageK8sClusters_err,
        stageK8sProjects_err, stageLBaaS_err, lastVal_successW_err]
      simp [option_some_or, option_none_or, hsid]
  · intro hsid
    refine gaugeVal_runCollect_of_lastVal b sid pd s _ _ _ ?_
    rw [writesOf_ok b sid pd info hb ad hd hv]
    simp only [lastVal_append, stageExtBalance_err, stageBalance_err,
      stageDomainCounters_err, lastVal_errW_singleton, stageProjects_err,
      stageInvoices_err, cloudResOkWrites_err, stageCloudInstances_err,
      stageVpsStatus_err, stageServiceServers_err, stageK8sClusters_err,
      stageK8sProjects_err, stageLBaaS_err, lastVal_successW_err]
    simp [option_some_or, option_none_or, hsid]
  · intro t ht
    fin_cases ht <;>
    · refine gaugeVal_runCollect_of_lastVal b sid pd s _ _ _ ?_
      rw [writesOf_ok b sid pd info hb ad hd hv]
      simp only [lastVal_append, stageExtBalance_err, stageBalance_err,
        stageDomainCounters_err, lastVal_errW_singleton, stageProjects_err,
        stageInvoices_err, cloudResOkWrites_err, stageCloudInstances_err,
        stageVpsStatus_err, stageServiceServers_err, stageK8sClusters_err,
        stageK8sProjects_err, stageLBaaS_err, lastVal_successW_err]
      simp [option_some_or, option_none_or]

/-- C1 witness backend: balance and domains succeed, invoices and the VPC
server query fail, a service ID is configured. -/
def bInvoicesFail : Backend :=
  { extBalanceQ := .ok [], balanceQ := .ok ⟨10, 0, 0, ⟨0, 0, 0, ""⟩⟩,
    domainsAuthQ := .ok [], invoicesQ := .error "bad gateway",
    vpsStatusQ := .ok none, vpcServersQ := .error "timeout",
    vpsServersQ := .ok [], k8sClustersQ := .ok none, k8sProjectsQ := .ok none }

/-- C1 witness. -/
theorem collect_noncritical_bulkhead_witness :
    gaugeVal (runCollect bInvoicesFail "svc1" parseDaysNone emptyState
      "pskz_scrape_success") [] = some 1 ∧
    gaugeVal (runCollect bInvoicesFail "svc1" parseDaysNone emptyState
      "pskz_last_scrape_error") ["invoices_fetch_error"] = some 1 ∧
    gaugeVal (runCollect bInvoicesFail "svc1" parseDaysNone emptyState
      "pskz_last_scrape_error") ["vpc_servers_fetch_error"] = some 1 := by
  have h := collect_noncritical_bulkhead bInvoicesFail "svc1" parseDaysNone emptyState
    ⟨10, 0, 0, ⟨0, 0, 0, ""⟩⟩ [] rfl rfl rfl
  exact ⟨h.1, h.2.2.1, (h.2.2.2.1 (by simp)).1⟩

/-- C1 counterexample backend: the balance fetch succeeds, the domains
fetch fails its internal authentication check. -/
def bDomainsFail : Backend :=
  { extBalanceQ := .ok [], balanceQ := .ok ⟨10, 0, 0, ⟨0, 0, 0, ""⟩⟩,
    domainsAuthQ := .error "authentication required",
    invoicesQ := .ok [], vpsStatusQ := .ok none, vpcServersQ := .ok [],
    vpsServersQ := .ok [], k8sClustersQ := .ok none, k8sProjectsQ := .ok none }

/-- C1 counterexample: a domains fetch failure aborts the cycle and flips
scrape_success to 0, although the balance check succeeded: the domains
gauge is set to 1, scrape_success is 0, and the invoices source is never
reached (no invoices gauge write happens in the whole cycle). -/
theorem collect_domains_abort_cex :
    gaugeVal (runCollect bDomainsFail "" parseDaysNone emptyState
      "pskz_scrape_success") [] = some 0 ∧
    gaugeVal (runCollect bDomainsFail "" parseDaysNone emptyState
      "pskz_last_scrape_error") ["domains_fetch_error"] = some 1 ∧
    lastVal (writesOf bDomainsFail "" parseDaysNone) "pskz_last_scrape_error"
      ["invoices_fetch_error"] = none := by
  refine ⟨?_, ?_, ?_⟩ <;> decide

/-- The portion of a panic-free successful cycle after the domain counters
stage. -/
def tailWrites (b : Backend) (sid : String) : List Write :=
  [errW "domains_fetch_error" 0] ++
  (stageProjects ++
   (stageInvoices b.invoicesQ ++
    (cloudResOkWrites ++
     (stageCloudInstances ++
      ((stageVpsStatus b.vpsStatusQ).1 ++
       (stageServiceServers sid b.vpcServersQ b.vpsServersQ ++
        (stageK8sClusters b.k8sClustersQ ++
         ((stageK8sProjects b.k8sProjectsQ).1 ++
          (stageLBaaS ++ [successW 1])))))))))

theorem writesOf_ok_tail (b : Backend) (sid : String) (pd : String → Option ℚ)
    (info : BalanceInfo) (hb : b.balanceQ = .ok info) (ad : Doc)
    (hd : b.domainsAuthQ = .ok ad)
    (hv : (stageVpsStatus b.vpsStatusQ).2 = none) :
    writesOf b sid pd =
      stageExtBalance b.extBalanceQ ++
      (stageBalance ⟨info.balance, info.credit.credit, 0⟩ ++
       (stageDomainCounters ++ tailWrites b sid)) := by
  rw [writesOf_ok b sid pd info hb ad hd hv]; rfl

/-- Metric names the tail of a successful cycle can write: no balance
family metric appears after the balance stage. -/
def tailMetrics : List String :=
  ["pskz_last_scrape_error", "pskz_scrape_success", "pskz_domain_counters",
   "pskz_invoice_counters", "pskz_invoice_amount", "pskz_cloud_summary",
   "pskz_vps_server_status", "pskz_vps_server_ram_mb", "pskz_vps_server_cores",
   "pskz_server_ram_mb", "pskz_server_cores", "pskz_server_status",
   "pskz_server_ip_count",
   "pskz_k8s_cluster_count", "pskz_k8s_cluster_status", "pskz_k8s_cluster_nodes",
   "pskz_k8s_cluster_masters", "pskz_k8s_nodegroup_status",
   "pskz_k8s_nodegroup_nodes", "pskz_k8s_nodegroup_cores",
   "pskz_k8s_nodegroup_ram_mb",
   "pskz_lbaas_loadbalancer_count", "pskz_lbaas_loadbalancer_status",
   "pskz_lbaas_listeners_count", "pskz_lbaas_pools_count",
   "pskz_lbaas_members_count", "pskz_lbaas_flavor", "pskz_lbaas_floating_ip"]

theorem invoicesF_sub_tail :
    ∀ x ∈ ["pskz_last_scrape_error", "pskz_invoice_counters", "pskz_invoice_amount"],
      x ∈ tailMetrics := by
  intro x hx; fin_cases hx <;> simp [tailMetrics]

theorem serverF_sub_tail :
    ∀ x ∈ ["pskz_last_scrape_error", "pskz_server_ram_mb", "pskz_server_cores",
           "pskz_server_status", "pskz_server_ip_count"], x ∈ tailMetrics := by
  intro x hx; fin_cases hx <;> simp [tailMetrics]

theorem k8sF_sub_tail :
    ∀ x ∈ ["pskz_last_scrape_error", "pskz_k8s_cluster_count", "pskz_k8s_cluster_status",
           "pskz_k8s_cluster_nodes", "pskz_k8s_cluster_masters",
           "pskz_k8s_nodegroup_status", "pskz_k8s_nodegroup_nodes",
           "pskz_k8s_nodegroup_cores", "pskz_k8s_nodegroup_ram_mb"],
      x ∈ tailMetrics := by
  intro x hx; fin_cases hx <;> simp [tailMetrics]

set_option maxHeartbeats 1000000 in
theorem tailWrites_metrics (b : Backend) (sid : String) :
    ∀ w ∈ tailWrites b sid, w.metric ∈ tailMetrics := by
  intro w hw
  unfold tailWrites at hw
  simp only [List.mem_append, List.mem_cons, List.not_mem_nil, or_false] at hw
  rcases hw with hw | hw | hw | hw | hw | hw | hw | hw | hw | hw | hw
  · subst hw; simp [errW, tailMetrics]
  · rw [stageProjects_eq] at hw; fin_cases hw <;> simp [tailMetrics, errW]
  · exact invoicesF_sub_tail _ (stageInvoices_metrics b.invoicesQ w hw)
  · rw [cloudResOkWrites_eq] at hw; fin_cases hw <;> simp [tailMetrics, errW]
  · rw [stageCloudInstances_eq] at hw; fin_cases hw <;> simp [tailMetrics, errW]
  · rw [stageVpsStatus_eq1] at hw; fin_cases hw <;> simp [tailMetrics, errW]
  · exact serverF_sub_tail _ (stageServiceServers_metrics sid b.vpcServersQ b.vpsServersQ w hw)
  · exact k8sF_sub_tail _ (stageK8sClusters_metrics b.k8sClustersQ w hw)
  · rw [stageK8sProjects_metrics b.k8sProjectsQ w hw]; simp [tailMetrics]
  · rw [stageLBaaS_eq] at hw; fin_cases hw <;> simp [tailMetrics, errW]
  · subst hw; simp [successW, tailMetrics]

theorem stageBalance_prepay (bal : BalanceResponse) :
    lastVal (stageBalance bal) "pskz_prepay_balance" ["default"] = some bal.prepay := by
  simp [stageBalance, lastVal, errW]

theorem stageBalance_credit (bal : BalanceResponse) :
    lastVal (stageBalance bal) "pskz_credit_balance" ["default"] = some bal.credit := by
  simp [stageBalance, lastVal, errW]

set_option maxHeartbeats 1000000 in
theorem runCollect_k8svec (b : Backend) (sid : String) (pd : String → Option ℚ)
    (s : MState) (info : BalanceInfo) (ad : Doc) (e : String)
    (hb : b.balanceQ = .ok info) (hd : b.domainsAuthQ = .ok ad)
    (hv : (stageVpsStatus b.vpsStatusQ).2 = none)
    (hk : b.k8sClustersQ = .error e) (n : String)
    (hn : n ∈ ["pskz_k8s_cluster_count", "pskz_k8s_cluster_status",
               "pskz_k8s_cluster_nodes", "pskz_k8s_cluster_masters"]) :
    runCollect b sid pd s n =
      applyFor n [] [errW "k8s_clusters_fetch_error" 0,
                     ⟨"pskz_k8s_cluster_count", ["total"], 0⟩] := by
  have hstage : stageK8sClusters b.k8sClustersQ =
      [errW "k8s_clusters_fetch_error" 0, ⟨"pskz_k8s_cluster_count", ["total"], 0⟩] := by
    rw [stageK8sClusters, hk]
    rfl
  have hown : n ∈ processorOwnedMetrics := by fin_cases hn <;> decide
  have hext : ∀ w ∈ stageExtBalance b.extBalanceQ, w.metric ≠ n :=
    untouched_of_footprint (stageExtBalance_metrics b.extBalanceQ)
      (by fin_cases hn <;> simp)
  have hbalm : ∀ w ∈ stageBalance ⟨info.balance, info.credit.credit, 0⟩,
      w.metric ≠ n :=
    untouched_of_footprint (stageBalance_metrics _) (by fin_cases hn <;> simp)
  have hdcm : ∀ w ∈ stageDomainCounters, w.metric ≠ n := by
    rw [stageDomainCounters_eq]
    intro w hw
    fin_cases hw <;> (fin_cases hn <;> simp [errW])
  have hdomm : ∀ w ∈ [errW "domains_fetch_error" 0], w.metric ≠ n := by
    intro w hw
    fin_cases hw
    fin_cases hn <;> simp [errW]
  have hprm : ∀ w ∈ stageProjects, w.metric ≠ n := by
    rw [stageProjects_eq]
    intro w hw
    fin_cases hw
    fin_cases hn <;> simp [errW]
  have hinvm : ∀ w ∈ stageInvoices b.invoicesQ, w.metric ≠ n :=
    untouched_of_footprint (stageInvoices_metrics b.invoicesQ)
      (by fin_cases hn <;> simp)
  have hcrm : ∀ w ∈ cloudResOkWrites, w.metric ≠ n := by
    rw [cloudResOkWrites_eq]
    intro w hw
    fin_cases hw <;> (fin_cases hn <;> simp [errW])
  have hcim : ∀ w ∈ stageCloudInstances, w.metric ≠ n := by
    rw [stageCloudInstances_eq]
    intro w hw
    fin_cases hw
    fin_cases hn <;> simp [errW]
  have hvpsm : ∀ w ∈ (stageVpsStatus b.vpsStatusQ).1, w.metric ≠ n := by
    intro w hw
    rw [stageVpsStatus_metrics b.vpsStatusQ w hw]
    fin_cases hn <;> simp
  have hsvcm : ∀ w ∈ stageServiceServers sid b.vpcServersQ b.vpsServersQ,
      w.metric ≠ n :=
    untouched_of_footprint (stageServiceServers_metrics sid b.vpcServersQ b.vpsServersQ)
      (by fin_cases hn <;> simp)
  have hk8spm : ∀ w ∈ (stageK8sProjects b.k8sProjectsQ).1, w.metric ≠ n := by
    intro w hw
    rw [stageK8sProjects_metrics b.k8sProjectsQ w hw]
    fin_cases hn <;> simp
  have hlbm : ∀ w ∈ stageLBaaS, w.metric ≠ n := by
    rw [stageLBaaS_eq]
    intro w hw
    fin_cases hw <;> (fin_cases hn <;> simp [errW])
  have hsuccm : ∀ w ∈ [successW 1], w.metric ≠ n := by
    intro w hw
    fin_cases hw
    fin_cases hn <;> simp [successW]
  show applyWrites (resetAll s) _ n = _
  rw [applyWrites_apply, resetAll_owned s n hown,
    writesOf_ok_tail b sid pd info hb ad hd hv]
  rw [applyFor_append, applyFor_untouched _ _ _ hext,
    applyFor_append, applyFor_untouched _ _ _ hbalm,
    applyFor_append, applyFor_untouched _ _ _ hdcm]
  unfold tailWrites
  rw [applyFor_append, applyFor_untouched _ _ _ hdomm,
    applyFor_append, applyFor_untouched _ _ _ hprm,
    applyFor_append, applyFor_untouched _ _ _ hinvm,
    applyFor_append, applyFor_untouched _ _ _ hcrm,
    applyFor_append, applyFor_untouched _ _ _ hcim,
    applyFor_append, applyFor_untouched _ _ _ hvpsm,
    applyFor_append, applyFor_untouched _ _ _ hsvcm,
    applyFor_append, hstage,
    applyFor_append, applyFor_untouched _ _ _ hk8spm,
    applyFor_append, applyFor_untouched _ _ _ hlbm,
    applyFor_untouched _ _ _ hsuccm]

/-- C2 (amended): when the balance and domains fetches succeed, no panic
escapes the VPS status processing (any VPS server item would panic the
cycle at the VPS stage, before the Kubernetes clusters stage is reached),
and the Kubernetes clusters query fails with a transport error, the client
swallows the error and substitutes the empty stub, so the cycle records
last_scrape_error k8s_clusters_fetch_error as 0 (not 1), publishes
k8s_cluster_count total 0 as the only k8s_cluster sample, leaves the other
cluster vectors empty, keeps the balance metrics, and reports
scrape_success 1. -/
theorem collect_k8s_transport_behavior (b : Backend) (sid : String)
    (pd : String → Option ℚ) (s : MState) (info : BalanceInfo) (ad : Doc)
    (e : String) (hb : b.balanceQ = .ok info) (hd : b.domainsAuthQ = .ok ad)
    (hv : (stageVpsStatus b.vpsStatusQ).2 = none)
    (hk : b.k8sClustersQ = .error e) :
    gaugeVal (runCollect b sid pd s "pskz_prepay_balance") ["default"] =
      some info.balance ∧
    gaugeVal (runCollect b sid pd s "pskz_debt_balance") ["default"] = some 0 ∧
    gaugeVal (runCollect b sid pd s "pskz_last_scrape_error")
      ["k8s_clusters_fetch_error"] = some 0 ∧
    runCollect b sid pd s "pskz_k8s_cluster_count" = [(["total"], 0)] ∧
    runCollect b sid pd s "pskz_k8s_cluster_status" = [] ∧
    runCollect b sid pd s "pskz_k8s_cluster_nodes" = [] ∧
    runCollect b sid pd s "pskz_k8s_cluster_masters" = [] ∧
    gaugeVal (runCollect b sid pd s "pskz_scrape_success") [] = some 1 := by
  have hbalvec : ∀ (n : String) (v : ℚ),
      lastVal (stageBalance ⟨info.balance, info.credit.credit, 0⟩) n ["default"] = some v →
      n ∉ tailMetrics →
      gaugeVal (runCollect b sid pd s n) ["default"] = some v := by
    intro n v hval htail
    refine gaugeVal_runCollect_of_lastVal b sid pd s _ _ _ ?_
    rw [writesOf_ok_tail b sid pd info hb ad hd hv, lastVal_append, lastVal_append,
      lastVal_append]
    rw [lastVal_none_of_metrics (tailWrites_metrics b sid) htail, hval]
    have hdc : lastVal stageDomainCounters n ["default"] = none := by
      refine lastVal_none_of_untouched _ _ _ ?_
      rw [stageDomainCounters_eq]
      intro w hw hc
      apply htail
      rw [← hc]
      fin_cases hw <;> simp [errW, tailMetrics]
    rw [hdc]
    rfl
  refine ⟨?_, ?_, ?_, ?_, ?_, ?_, ?_, ?_⟩
  · exact hbalvec _ info.balance (stageBalance_prepay _) (by decide)
  · exact hbalvec _ 0 (stageBalance_debt _) (by decide)
  · refine gaugeVal_runCollect_of_lastVal b sid pd s _ _ _ ?_
    rw [writesOf_ok b sid pd info hb ad hd hv]
    simp only [lastVal_append, stageExtBalance_err, stageBalance_err,
      stageDomainCounters_err, lastVal_errW_singleton, stageProjects_err,
      stageInvoices_err, cloudResOkWrites_err, stageCloudInstances_err,
      stageVpsStatus_err, stageServiceServers_err, stageK8sClusters_err,
      stageK8sProjects_err, stageLBaaS_err, lastVal_successW_err]
    simp [option_some_or, option_none_or]
  · rw [runCollect_k8svec b sid pd s info ad e hb hd hv hk _ (by simp)]
    decide
  · rw [runCollect_k8svec b sid pd s info ad e hb hd hv hk _ (by simp)]
    decide
  · rw [runCollect_k8svec b sid pd s info ad e hb hd hv hk _ (by simp)]
    decide
  · rw [runCollect_k8svec b sid pd s info ad e hb hd hv hk _ (by simp)]
    decide
  · refine gaugeVal_runCollect_of_lastVal b sid pd s _ _ _ ?_
    rw [writesOf_ok b sid pd info hb ad hd hv]
    simp only [lastVal_append, lastVal_successW_self, option_some_or]

/-- C2 counterexample backend: balance succeeds, the Kubernetes cluster
query fails with a transport error. -/
def bK8sFail : Backend :=
  { extBalanceQ := .ok [], balanceQ := .ok ⟨42, 5, 0, ⟨0, 0, 0, ""⟩⟩,
    domainsAuthQ := .ok [], invoicesQ := .ok [], vpsStatusQ := .ok none,
    vpcServersQ := .ok [], vpsServersQ := .ok [],
    k8sClustersQ := .error "transport error", k8sProjectsQ := .ok none }

/-- C2 counterexample: with the balance fetch succeeding and the Kubernetes
cluster fetch failing with a transport error, the error gauge for the
cluster source reads 0, not 1, and a k8s_cluster_count sample with value 0
is present in the snapshot, contrary to the claimed output. -/
theorem collect_k8s_transport_cex :
    gaugeVal (runCollect bK8sFail "" parseDaysNone emptyState
      "pskz_last_scrape_error") ["k8s_clusters_fetch_error"] = some 0 ∧
    runCollect bK8sFail "" parseDaysNone emptyState "pskz_k8s_cluster_count" =
      [(["total"], 0)] ∧
    gaugeVal (runCollect bK8sFail "" parseDaysNone emptyState
      "pskz_scrape_success") [] = some 1 := by
  refine ⟨?_, ?_, ?_⟩ <;> decide

/-- C2 witness backend. -/
def bK8sFailW : Backend :=
  { extBalanceQ := .error "ext down", balanceQ := .ok ⟨7, 3, 1, ⟨2, 9, 9, ""⟩⟩,
    domainsAuthQ := .ok [], invoicesQ := .error "bad", vpsStatusQ := .error "down",
    vpcServersQ := .ok [], vpsServersQ := .ok [],
    k8sClustersQ := .error "connection refused", k8sProjectsQ := .ok none }

/-- C2 witness. -/
theorem collect_k8s_transport_behavior_witness :
    gaugeVal (runCollect bK8sFailW "" parseDaysNone emptyState
      "pskz_prepay_balance") ["default"] = some 7 ∧
    runCollect bK8sFailW "" parseDaysNone emptyState "pskz_k8s_cluster_status" = [] := by
  have h := collect_k8s_transport_behavior bK8sFailW "" parseDaysNone emptyState
    ⟨7, 3, 1, ⟨2, 9, 9, ""⟩⟩ [] "connection refused" rfl rfl rfl rfl
  exact ⟨h.1, h.2.2.2.2.1⟩

/-- C3: the document on which processCloudResources panics: the
instanceInfo map carries a non numeric leaf, and the unchecked Go type
assertion at part_004 line 1260 fails at runtime. -/
def cloudBadDoc : Doc :=
  [("data", .obj
    [("vpc", .obj
      [("service", .obj
        [("instanceInfo", .obj
          [("res1", .obj [("note", .str "not a number")])])])])])]

/-- C3: the Processor boundary is not panic free: processCloudResources
applies an unchecked float64 type assertion to every instanceInfo leaf, so
a document whose leaf is a string makes the processor panic instead of
omitting the attribute; the panic escapes into the Collect loop. -/
theorem processCloudResources_panics :
    processCloudResources cloudBadDoc =
      .error "interface conversion: interface is not float64" := rfl

/-- C6 counterexample input: a VPS server item with no status field. -/
def vpsNoStatusDoc : Doc :=
  [("data", .obj
    [("vps", .obj
      [("server", .obj
        [("pagination", .obj
          [("items", .arr [.obj [("serverId", .num 7), ("name", .str "srv1")]])])])])])]

/-- C6 counterexample input: a cloud instance in the PAUSED state. -/
def pausedInstanceDoc : Doc :=
  [("data", .obj
    [("vpc", .obj
      [("instance", .obj
        [("pagination", .obj
          [("items", .arr
            [.obj [("instanceName", .str "vm1"), ("status", .str "PAUSED")]])])])])])]

/-- C6 counterexample: the cloud instance classifier emits the third value
one half for PAUSED, so status values are not confined to 0 and 1; and a
VPS item with a missing status field is never recorded under any label at
all — the processor computes the uppercase fallback UNKNOWN (source line
1418) and then panics at the status write, whose three label values do not
fit the two-label vps_server_status vector. -/
theorem status_classification_cex :
    processCloudInstances pausedInstanceDoc =
      [⟨"pskz_cloud_instance_info", ["vm1", "status"], 1/2⟩] ∧
    ¬((1 : ℚ)/2 = 0 ∨ (1 : ℚ)/2 = 1) ∧
    processVpsServersStatus vpsNoStatusDoc =
      .error "inconsistent label cardinality: expected 2 label values but got 3" ∧
    "UNKNOWN" ≠ "unknown" := by
  refine ⟨rfl, by norm_num, rfl, by decide⟩

/-- C6 (amended): the VPS, VPC server, Kubernetes and LBaaS classifiers map
their healthy set to 1 and everything else to 0; the domain classifier adds
a third value -1 for any status other than active and expired; the cloud
instance classifier maps ACTIVE to 1, SHUTOFF to 0, PAUSED to one half and
anything else to -1; a Kubernetes cluster item or an LBaaS load balancer
item with a missing status field is recorded under the lowercase literal
unknown; and a VPS server item is never recorded at all, with or without a
status field: the VPS items loop panics on the inconsistent label
cardinality of its first write. -/
theorem status_classification_behavior :
    (∀ s, vpsStatusValue s = 0 ∨ vpsStatusValue s = 1) ∧
    (∀ s, vpsStatusValue s = 1 ↔ s = "ACTIVE") ∧
    (∀ s, serverStatusValue s = 0 ∨ serverStatusValue s = 1) ∧
    (∀ s, k8sStatusValue s = 0 ∨ k8sStatusValue s = 1) ∧
    (∀ s, k8sStatusValue s = 1 ↔ (s = "CREATE_COMPLETE" ∨ s = "UPDATE_COMPLETE")) ∧
    (∀ s, lbStatusValue s = 0 ∨ lbStatusValue s = 1) ∧
    (∀ s, s ≠ "active" → s ≠ "expired" → domainStatusValue s = -1) ∧
    (domainStatusValue "active" = 1 ∧ domainStatusValue "expired" = 0) ∧
    (cloudInstanceStatusValue "ACTIVE" = 1 ∧ cloudInstanceStatusValue "SHUTOFF" = 0 ∧
     cloudInstanceStatusValue "PAUSED" = 1/2) ∧
    (∀ s, s ≠ "ACTIVE" → s ≠ "SHUTOFF" → s ≠ "PAUSED" →
      cloudInstanceStatusValue s = -1) ∧
    (∀ (md : Doc) (cid : String) (counts : List (String × ℕ)),
      strField md "_id" = some cid → strField md "status" = none →
      (⟨"pskz_k8s_cluster_status",
        [cid, (strField md "name").getD "unknown", "unknown",
         (strField md "endpointId").getD "", (strField md "regionId").getD "",
         match numField md "projectId" with | some pid => goF0Str pid | none => "",
         match objField md "clusterTemplate" with
         | some template => (strField template "name").getD "unknown"
         | none => "unknown"], 0⟩ : Write) ∈ (k8sClusterItemsLoop [.obj md] counts).1) ∧
    (∀ (md : Doc) (lbid : String) (counts : List (String × ℕ)),
      strField md "_id" = some lbid → strField md "provisioningStatus" = none →
      (⟨"pskz_lbaas_loadbalancer_status",
        [lbid, (strField md "name").getD "unknown",
         (strField md "regionId").getD "unknown",
         match objField md "cluster" with
         | some cluster => (strField cluster "name").getD "unknown"
         | none => "unknown",
         "unknown", (strField md "vipAddress").getD "unknown",
         (strField md "floatingIpAddress").getD ""], 0⟩ : Write)
        ∈ (lbItemsLoop [.obj md] counts).1) ∧
    (∀ (md : Doc) (rest : List GoVal) (counts : List (String × ℕ)),
      vpsItemsLoop (.obj md :: rest) counts =
        .error "inconsistent label cardinality: expected 2 label values but got 3") := by
  refine ⟨?_, ?_, ?_, ?_, ?_, ?_, ?_, ⟨rfl, rfl⟩, ⟨rfl, rfl, rfl⟩, ?_, ?_, ?_, ?_⟩
  · intro s; unfold vpsStatusValue; split <;> simp
  · intro s; unfold vpsStatusValue; split <;> simp_all
  · intro s; unfold serverStatusValue; split <;> simp
  · intro s; unfold k8sStatusValue; split <;> simp
  · intro s; unfold k8sStatusValue; split <;> simp_all
  · intro s; unfold lbStatusValue; split <;> simp
  · intro s h1 h2; simp [domainStatusValue, h1, h2]
  · intro s h1 h2 h3; simp [cloudInstanceStatusValue, h1, h2, h3]
  · intro md cid counts hid hst
    simp only [k8sClusterItemsLoop, GoVal.asObj, hid, hst, Option.getD_none]
    simp [List.mem_cons, List.mem_append, k8sStatusValue]
  · intro md lbid counts hid hst
    simp only [lbItemsLoop, GoVal.asObj, hid, hst, Option.getD_none]
    simp [List.mem_cons, List.mem_append, lbStatusValue]
  · intro md rest counts; rfl

/-- C6 witness. -/
theorem status_classification_behavior_witness :
    domainStatusValue "pending" = -1 ∧
    (⟨"pskz_k8s_cluster_status", ["c9", "unknown", "unknown", "", "", "", "unknown"],
      0⟩ : Write) ∈ (k8sClusterItemsLoop [.obj [("_id", GoVal.str "c9")]] []).1 ∧
    vpsItemsLoop [.obj [("serverId", GoVal.num 7)]] [] =
      .error "inconsistent label cardinality: expected 2 label values but got 3" :=
  ⟨status_classification_behavior.2.2.2.2.2.2.1 "pending" (by decide) (by decide),
   status_classification_behavior.2.2.2.2.2.2.2.2.2.2.1
     [("_id", GoVal.str "c9")] "c9" [] rfl rfl,
   status_classification_behavior.2.2.2.2.2.2.2.2.2.2.2.2
     [("serverId", GoVal.num 7)] [] []⟩

/-- C7: a Kubernetes cluster item carrying status CREATE_COMPLETE, a node
count of 3 and a master count of 1 yields the cluster status gauge 1, the
node gauge 3 and the master gauge 1 under the cluster's label tuple. -/
theorem k8s_cluster_item_metrics (md : Doc) (cid : String)
    (counts : List (String × ℕ))
    (hid : strField md "_id" = some cid)
    (hst : strField md "status" = some "CREATE_COMPLETE")
    (hnc : numField md "nodeCount" = some 3)
    (hmc : numField md "masterCount" = some 1) :
    (⟨"pskz_k8s_cluster_status",
      [cid, (strField md "name").getD "unknown", "CREATE_COMPLETE",
       (strField md "endpointId").getD "", (strField md "regionId").getD "",
       match numField md "projectId" with | some pid => goF0Str pid | none => "",
       match objField md "clusterTemplate" with
       | some template => (strField template "name").getD "unknown"
       | none => "unknown"], 1⟩ : Write) ∈ (k8sClusterItemsLoop [.obj md] counts).1 ∧
    (⟨"pskz_k8s_cluster_nodes", [cid, (strField md "name").getD "unknown"], 3⟩ : Write)
      ∈ (k8sClusterItemsLoop [.obj md] counts).1 ∧
    (⟨"pskz_k8s_cluster_masters", [cid, (strField md "name").getD "unknown"], 1⟩ : Write)
      ∈ (k8sClusterItemsLoop [.obj md] counts).1 := by
  refine ⟨?_, ?_, ?_⟩ <;>
  · simp only [k8sClusterItemsLoop, GoVal.asObj, hid, hst, hnc, hmc, k8sStatusValue]
    simp [List.mem_cons, List.mem_append]

/-- C7 witness cluster item. -/
def k8sItemW : Doc :=
  [("_id", .str "c1"), ("name", .str "prod"), ("status", .str "CREATE_COMPLETE"),
   ("nodeCount", .num 3), ("masterCount", .num 1)]

/-- C7 witness. -/
theorem k8s_cluster_item_metrics_witness :
    (⟨"pskz_k8s_cluster_nodes", ["c1", "prod"], 3⟩ : Write)
      ∈ (k8sClusterItemsLoop [.obj k8sItemW] []).1 ∧
    (⟨"pskz_k8s_cluster_masters", ["c1", "prod"], 1⟩ : Write)
      ∈ (k8sClusterItemsLoop [.obj k8sItemW] []).1 := by
  have h := k8s_cluster_item_metrics k8sItemW "c1" [] rfl rfl rfl rfl
  exact ⟨h.2.1, h.2.2⟩

/-- C8: a quota entry with service compute, key ram, limit 100 and inUse 40
yields exactly two dynamically named constant metrics,
pskz_k8s_project_quota_compute_ram_limit 100 and
pskz_k8s_project_quota_compute_ram_used 40, labelled by project id, project
name and region id. -/
theorem k8s_project_quota_metrics (qm : Doc) (pid pname rid : String)
    (hk : strField qm "key" = some "ram")
    (hl : numField qm "limit" = some 100)
    (hu : numField qm "inUse" = some 40) :
    quotaEntryMetrics "compute" rid pid pname (.obj qm) =
      [⟨"pskz_k8s_project_quota_compute_ram_limit",
        ["project_id", "project_name", "region_id"], [pid, pname, rid], 100⟩,
       ⟨"pskz_k8s_project_quota_compute_ram_used",
        ["project_id", "project_name", "region_id"], [pid, pname, rid], 40⟩] := by
  simp [quotaEntryMetrics, GoVal.asObj, hk, hl, hu]

/-- C8 witness. -/
theorem k8s_project_quota_metrics_witness :
    quotaEntryMetrics "compute" "kz1" "p7" "team-a"
      (.obj [("key", .str "ram"), ("limit", .num 100), ("inUse", .num 40)]) =
      [⟨"pskz_k8s_project_quota_compute_ram_limit",
        ["project_id", "project_name", "region_id"], ["p7", "team-a", "kz1"], 100⟩,
       ⟨"pskz_k8s_project_quota_compute_ram_used",
        ["project_id", "project_name", "region_id"], ["p7", "team-a", "kz1"], 40⟩] :=
  k8s_project_quota_metrics
    [("key", .str "ram"), ("limit", .num 100), ("inUse", .num 40)]
    "p7" "team-a" "kz1" rfl rfl rfl

/-- C5 witness backend and stale prior state. -/
def bReset : Backend :=
  { extBalanceQ := .ok [], balanceQ := .ok ⟨1, 1, 1, ⟨0, 0, 0, ""⟩⟩,
    domainsAuthQ := .ok [], invoicesQ := .ok [], vpsStatusQ := .ok none,
    vpcServersQ := .ok [], vpsServersQ := .ok [], k8sClustersQ := .ok none,
    k8sProjectsQ := .ok none }

/-- A prior state carrying a stale label combination on every vector. -/
def staleState : MState := fun _ => [(["ghost"], 99)]

/-- C5 witness. -/
theorem collect_reset_no_stale_witness :
    "pskz_vps_server_status" ∈ processorOwnedMetrics ∧
    (runCollect bReset "" parseDaysNone staleState "pskz_vps_server_status" =
       runCollect bReset "" parseDaysNone emptyState "pskz_vps_server_status" ∧
     ∀ ls, (∃ x, (ls, x) ∈
              runCollect bReset "" parseDaysNone staleState "pskz_vps_server_status") ↔
           (∃ x, (⟨"pskz_vps_server_status", ls, x⟩ : Write) ∈
              writesOf bReset "" parseDaysNone)) :=
  ⟨by decide,
   collect_reset_no_stale bReset "" parseDaysNone staleState emptyState
     "pskz_vps_server_status" (by decide)⟩

end PSCloud
